import Mathlib

/-!
Verification of the FX hedge-accounting data-aggregation service
(`app/services/hedge_data.py` and `app/api/v1.py`) against its design
specification.  Python dict rows are modelled as association lists of
scalar JSON-like values, Python `float` arithmetic as exact rationals,
and fallible operations (queries, numeric coercion) as `Except`.
-/

namespace HedgeSpec

/-- A scalar JSON/Python value as stored in a table row:
a number, a string, a boolean, or `None`. -/
inductive Val where
  | num  (q : ℚ)
  | str  (s : String)
  | bool (b : Bool)
  | null
  deriving DecidableEq

/-- A table row: a Python dict from column name to value
(association list, first binding wins on lookup). -/
abbrev Row := List (String × Val)

/-- `row.get(k)` — `none` when the key is absent. -/
def Row.get (r : Row) (k : String) : Option Val :=
  (r.find? (fun p => p.1 = k)).map (fun p => p.2)

/-- `row.get(k, d)` — the stored value when the key is present
(even if that value is `None`), otherwise the default. -/
def Row.getD (r : Row) (k : String) (d : Val) : Val :=
  (Row.get r k).getD d

/-- Python truthiness of a scalar value. -/
def truthy : Val → Bool
  | .num q  => q ≠ 0
  | .str s  => s ≠ ""
  | .bool b => b
  | .null   => false

/-- Digit character to its numeric value. -/
def digitVal (c : Char) : ℕ := c.toNat - 48

/-- Parse a nonempty all-digit character list as a natural number. -/
def natOfDigits : List Char → Option ℕ
  | [] => none
  | cs => if cs.all Char.isDigit then
            some (cs.foldl (fun a c => 10 * a + digitVal c) 0)
          else none

/-- Models Python `float()` applied to a string, for the sign/decimal
literal fragment `[+|-] digits [. digits]`; exponents, `inf`/`nan`,
underscores and surrounding whitespace are treated as non-numeric. -/
def parseDecimal (s : String) : Option ℚ :=
  let cs := s.toList
  let signed : ℚ × List Char :=
    match cs with
    | '-' :: t => (-1, t)
    | '+' :: t => (1, t)
    | _        => (1, cs)
  let intPart := signed.2.takeWhile (fun c => c ≠ '.')
  let rest := signed.2.dropWhile (fun c => c ≠ '.')
  match rest with
  | [] => (natOfDigits intPart).map (fun n => signed.1 * n)
  | _ :: frac =>
    if frac.any (fun c => c = '.') then none
    else if intPart = [] ∧ frac = [] then none
    else
      let ip : Option ℕ := if intPart = [] then some 0 else natOfDigits intPart
      let fp : Option ℕ := if frac = [] then some 0 else natOfDigits frac
      match ip, fp with
      | some i, some f => some (signed.1 * ((i : ℚ) + (f : ℚ) / 10 ^ frac.length))
      | _, _ => none

/-- Python `float(v)`: numbers pass through, booleans become 0/1,
numeric strings parse, `None` and non-numeric strings raise. -/
def pyFloat : Val → Except String ℚ
  | .num q  => .ok q
  | .bool b => .ok (if b then 1 else 0)
  | .str s  =>
    match parseDecimal s with
    | some q => .ok q
    | none   => .error ("could not convert string to float: " ++ s)
  | .null   => .error "float() argument must be a string or a real number, not NoneType"

/-- Models `float(row.get(k, 0) or 0)`: a missing key defaults to 0, a
falsy stored value is replaced by 0, and the result is coerced by
Python `float` (which raises on truthy non-numeric values). -/
def floatField (r : Row) (k : String) : Except String ℚ :=
  let v := Row.getD r k (.num 0)
  pyFloat (if truthy v then v else .num 0)

/-- Round a rational to the nearest integer, ties to even
(Python `round` semantics on exact values). -/
def roundHE (q : ℚ) : ℤ :=
  let f := ⌊q⌋
  if q - f < 1 / 2 then f
  else if q - f > 1 / 2 then f + 1
  else if 2 ∣ f then f else f + 1

/-- Python `round(q, n)` on exact values. -/
def pyRound (q : ℚ) (n : ℕ) : ℚ :=
  (roundHE (q * 10 ^ n) : ℚ) / 10 ^ n

/-- Models `sum(float(h.get("notional_amount", 0) or 0) for h in hs)`
(raises on a truthy non-numeric notional). -/
def sumNotional : List Row → Except String ℚ
  | [] => .ok 0
  | h :: t => do
    let x ← floatField h "notional_amount"
    let r ← sumNotional t
    .ok (x + r)

/-- The per-position hedging state computed by
`calculate_complete_hedging_state`. -/
structure HedgingState where
  already_hedged_amount : ℚ
  available_for_hedging : ℚ
  calculated_available_amount : ℚ
  hedge_utilization_pct : ℚ
  hedging_status : String
  car_amount_distribution : ℚ
  manual_overlay_amount : ℚ
  buffer_amount : ℚ
  buffer_percentage : Val
  framework_type : Val
  car_exemption_flag : Val
  framework_compliance : Val
  last_allocation_date : Val
  waterfall_priority : Val
  allocation_sequence : Val
  allocation_status : Val
  active_hedge_count : ℕ
  total_hedge_notional : ℚ
  deriving DecidableEq

/-- `calculate_complete_hedging_state(position, allocation,
hedge_relationships, framework_rule, buffer_rule, car_info)`:
numeric coercions happen in source order and may raise. -/
def calculate_complete_hedging_state
    (position allocation : Row) (hedge_relationships : List Row)
    (framework_rule buffer_rule car_info : Row) :
    Except String HedgingState := do
  let current_position ← floatField position "current_position"
  let _allocated_amount ← floatField allocation "hedge_amount_allocation"
  let available_for_hedging ← floatField allocation "available_amount_for_hedging"
  let hedged_position ← floatField allocation "hedged_position"
  let car_amount ← floatField allocation "car_amount_distribution"
  let manual_overlay ← floatField allocation "manual_overlay_amount"
  let buffer_amount ← floatField allocation "buffer_amount"
  let hedge_utilization_pct : ℚ :=
    if current_position > 0 then hedged_position / current_position * 100 else 0
  let hedging_status : String :=
    if hedged_position ≥ current_position then "Fully_Hedged"
    else if hedged_position > 0 then "Partially_Hedged"
    else if available_for_hedging ≤ 0 then "Not_Available"
    else "Available"
  let framework_type := Row.getD framework_rule "framework_type" (.str "Not_Defined")
  let buffer_percentage :=
    Row.getD buffer_rule "buffer_percentage" (Row.getD position "buffer_percentage" (.num 0))
  let car_exemption :=
    Row.getD framework_rule "car_exemption_flag"
      (Row.getD framework_rule "car_exemption_override" (.str "N"))
  let calculated_available :=
    current_position - car_amount + manual_overlay - buffer_amount - hedged_position
  let total_notional ← sumNotional hedge_relationships
  let _ := car_info
  .ok {
    already_hedged_amount := hedged_position
    available_for_hedging := available_for_hedging
    calculated_available_amount := calculated_available
    hedge_utilization_pct := pyRound hedge_utilization_pct 2
    hedging_status := hedging_status
    car_amount_distribution := car_amount
    manual_overlay_amount := manual_overlay
    buffer_amount := buffer_amount
    buffer_percentage := buffer_percentage
    framework_type := framework_type
    car_exemption_flag := car_exemption
    framework_compliance := framework_type
    last_allocation_date := Row.getD allocation "created_date" .null
    waterfall_priority := Row.getD allocation "waterfall_priority" .null
    allocation_sequence := Row.getD allocation "allocation_sequence" .null
    allocation_status := Row.getD allocation "allocation_status" (.str "Pending")
    active_hedge_count := hedge_relationships.length
    total_hedge_notional := total_notional }

/-! ## Python dict model (keyed by scalar values) -/

/-- Python dict assignment `d[k] = v`: update in place if the key
exists, else append (insertion order preserved). -/
def dictSet {β : Type} (d : List (Val × β)) (k : Val) (v : β) : List (Val × β) :=
  if d.any (fun p => p.1 = k) then
    d.map (fun p => if p.1 = k then (k, v) else p)
  else d ++ [(k, v)]

/-- Python `d.get(k)`. -/
def dictGet {β : Type} (d : List (Val × β)) (k : Val) : Option β :=
  (d.find? (fun p => p.1 = k)).map (fun p => p.2)

/-- `defaultdict(list)` append: `d[k].append(v)`. -/
def dictAppend {β : Type} (d : List (Val × List β)) (k : Val) (v : β) :
    List (Val × List β) :=
  if d.any (fun p => p.1 = k) then
    d.map (fun p => if p.1 = k then (p.1, p.2 ++ [v]) else p)
  else d ++ [(k, [v])]

/-- Python set built by a comprehension: first-seen insertion order,
duplicates dropped (iteration order itself is unspecified in Python;
only membership and cardinality are relied on). -/
def pySet (xs : List Val) : List Val :=
  xs.foldl (fun acc v => if v ∈ acc then acc else acc ++ [v]) []

/-- Dict merge-with-update `{**r, k: v}`: the key keeps its position
if present, else is appended. -/
def rowSet (r : Row) (k : String) (v : Val) : Row :=
  if r.any (fun p => p.1 = k) then
    r.map (fun p => if p.1 = k then (k, v) else p)
  else r ++ [(k, v)]

/-! ## Entity rows and the currency-configuration join field -/

/-- The `currency_configuration` field embedded in an entity row by the
Supabase join: absent, `None`, a list of joined rows, or a single
joined row. -/
inductive CCField where
  | absent
  | null
  | vlist (rows : List Row)
  | vdict (r : Row)
  deriving DecidableEq

/-- An `entity_master` row: its scalar columns plus the joined
`currency_configuration` value. -/
structure EntityRow where
  fields : Row
  currency_configuration : CCField
  deriving DecidableEq

/-- Python truthiness of the join field. -/
def ccTruthy : CCField → Bool
  | .absent => false
  | .null => false
  | .vlist rows => !rows.isEmpty
  | .vdict r => !r.isEmpty

/-- The `c_type` extraction in `complete_structured_response`:
`None` unless the join field is present and truthy; for a list, the
first element's `currency_type`; for a dict, its `currency_type`. -/
def cType : CCField → Val
  | .absent => .null
  | .null => .null
  | .vlist [] => .null
  | .vlist (r :: _) => Row.getD r "currency_type" .null
  | .vdict r => if r.isEmpty then .null else Row.getD r "currency_type" .null

/-! ## Lookup structures built by `complete_structured_response` -/

/-- `entity_info_lookup`: entity rows with a truthy `entity_id`, keyed
by it, value `{**e, "currency_type": c_type}` (dict assignment:
later rows with the same id overwrite earlier ones). -/
def entityInfoLookup (entities_rows : List EntityRow) : List (Val × Row) :=
  entities_rows.foldl
    (fun d e =>
      let eid := Row.getD e.fields "entity_id" .null
      if truthy eid then
        dictSet d eid (rowSet e.fields "currency_type" (cType e.currency_configuration))
      else d)
    []

/-- `allocation_lookup`: allocations grouped by truthy `entity_id`,
in row order. -/
def allocationLookup (allocations_rows : List Row) : List (Val × List Row) :=
  allocations_rows.foldl
    (fun d alloc =>
      let eid := Row.getD alloc "entity_id" .null
      if truthy eid then dictAppend d eid alloc else d)
    []

/-- `hedge_relationships`: hedge events grouped by truthy `entity_id`. -/
def hedgeRelationships (hedge_events_rows : List Row) : List (Val × List Row) :=
  hedge_events_rows.foldl
    (fun d event =>
      let eid := Row.getD event "entity_id" .null
      if truthy eid then dictAppend d eid event else d)
    []

/-- `framework_rules`: one rule per truthy `entity_id`, assigned with
plain dict assignment, so a later row with the same id replaces an
earlier one (last write wins). -/
def frameworkRules (hedging_framework_rows : List Row) : List (Val × Row) :=
  hedging_framework_rows.foldl
    (fun d rule =>
      let eid := Row.getD rule "entity_id" .null
      if truthy eid then dictSet d eid rule else d)
    []

/-- `buffer_rules`: one rule per truthy `entity_id`, last write wins. -/
def bufferRules (buffer_config_rows : List Row) : List (Val × Row) :=
  buffer_config_rows.foldl
    (fun d br =>
      let eid := Row.getD br "entity_id" .null
      if truthy eid then dictSet d eid br else d)
    []

/-- `car_data`: one CAR row per truthy `entity_id`; guarded by
`eid not in car_data`, so the first row seen wins. -/
def carData (car_master_rows : List Row) : List (Val × Row) :=
  car_master_rows.foldl
    (fun d car =>
      let eid := Row.getD car "entity_id" .null
      if truthy eid ∧ ¬ d.any (fun p => p.1 = eid) then d ++ [(eid, car)] else d)
    []

/-! ## Output record shapes -/

/-- One grouped position entry placed under its entity. -/
structure PositionEntry where
  nav_type : Val
  current_position : Val
  computed_total_nav : Val
  optimal_car_amount : Val
  buffer_percentage : Val
  buffer_amount : Val
  manual_overlay : Val
  allocation_status : Val
  hedging_state : HedgingState
  allocation_data : List Row
  hedge_relationships : List Row
  framework_rule : Row
  buffer_rule : Row
  car_data : Row
  deriving DecidableEq

/-- One output entity group. -/
structure EntityGroup where
  entity_id : Val
  entity_name : Val
  entity_type : Val
  exposure_currency : Val
  currency_type : Val
  car_exemption : Val
  parent_child_nav_link : Val
  positions : List PositionEntry
  deriving DecidableEq

/-- The USD private-bank deposit check record. -/
structure UsdPbCheck where
  total_usd_equivalent : ℚ
  threshold : Val
  status : String
  excess_amount : ℚ
  deriving DecidableEq

/-- The waterfall rules split into opening/closing lists. -/
structure WaterfallRules where
  opening : List Row
  closing : List Row
  deriving DecidableEq

/-- Threshold section of the stage-1A configuration. -/
structure ThresholdConfiguration where
  usd_pb_threshold : Val
  usd_pb_check : UsdPbCheck
  deriving DecidableEq

/-- `stage_1a_config` section. -/
structure Stage1AConfig where
  buffer_configuration : List Row
  waterfall_logic : WaterfallRules
  overlay_configuration : List Row
  hedging_framework : List Row
  system_configuration : List Row
  threshold_configuration : ThresholdConfiguration
  deriving DecidableEq

/-- `stage_1b_data` section. -/
structure Stage1BData where
  current_allocations : List Row
  hedge_instructions_history : List Row
  active_hedge_events : List (Val × List Row)
  car_master_data : List Row
  deriving DecidableEq

/-- `stage_2_config` section. -/
structure Stage2Config where
  booking_model_config : List Row
  murex_books : List Row
  hedge_instruments : List Row
  hedge_effectiveness : List Row
  deriving DecidableEq

/-- The full structured aggregation response. -/
structure StructuredResponse where
  entity_groups : List EntityGroup
  stage_1a_config : Stage1AConfig
  stage_1b_data : Stage1BData
  stage_2_config : Stage2Config
  risk_monitoring : List Row
  currency_configuration : List Row
  currency_rates : List Row
  proxy_configuration : List Row
  additional_rates : List Row
  deriving DecidableEq

/-! ## Grouping and response assembly -/

/-- Build one grouped position entry (the dict literal appended to
`grouped[eid]`). -/
def mkPositionEntry (pos : Row) (hs : HedgingState)
    (entity_allocations entity_hedge_relationships : List Row)
    (framework_rule buffer_rule car_info : Row) : PositionEntry :=
  { nav_type := Row.getD pos "nav_type" (.str "")
    current_position := Row.getD pos "current_position" (.num 0)
    computed_total_nav := Row.getD pos "computed_total_nav" (.num 0)
    optimal_car_amount := Row.getD pos "optimal_car_amount" (.num 0)
    buffer_percentage := Row.getD pos "buffer_percentage" (.num 0)
    buffer_amount := Row.getD pos "buffer_amount" (.num 0)
    manual_overlay := Row.getD pos "manual_overlay" (.num 0)
    allocation_status := Row.getD pos "allocation_status" (.str "Pending")
    hedging_state := hs
    allocation_data := entity_allocations
    hedge_relationships := entity_hedge_relationships
    framework_rule := framework_rule
    buffer_rule := buffer_rule
    car_data := car_info }

/-- One step of the position-grouping loop: a row with a falsy
`entity_id` is skipped; a kept row contributes one entry to
`grouped[eid]` whose hedging state is computed (and may raise). -/
def groupStep
    (alloc hrel : List (Val × List Row)) (frules brules cdata : List (Val × Row))
    (grouped : List (Val × List PositionEntry)) (pos : Row) :
    Except String (List (Val × List PositionEntry)) := do
  let eid := Row.getD pos "entity_id" .null
  if truthy eid then do
    let entity_allocations := (dictGet alloc eid).getD []
    let latest_allocation := entity_allocations.headD []
    let entity_hedge_relationships := (dictGet hrel eid).getD []
    let framework_rule := (dictGet frules eid).getD []
    let buffer_rule := (dictGet brules eid).getD []
    let car_info := (dictGet cdata eid).getD []
    let hs ← calculate_complete_hedging_state pos latest_allocation
      entity_hedge_relationships framework_rule buffer_rule car_info
    pure (dictAppend grouped eid
      (mkPositionEntry pos hs entity_allocations entity_hedge_relationships
        framework_rule buffer_rule car_info))
  else pure grouped

/-- The position-grouping loop over all position rows. -/
def buildGrouped
    (positions_rows : List Row)
    (alloc hrel : List (Val × List Row)) (frules brules cdata : List (Val × Row)) :
    Except String (List (Val × List PositionEntry)) :=
  positions_rows.foldlM (groupStep alloc hrel frules brules cdata) []

/-- Build the entity groups from the grouped positions: entity
metadata defaults to empty strings / `False` when the id has no row in
`entity_info_lookup`. -/
def buildEntityGroups (grouped : List (Val × List PositionEntry))
    (lookup : List (Val × Row)) : List EntityGroup :=
  grouped.map (fun p =>
    let entity := (dictGet lookup p.1).getD []
    { entity_id := p.1
      entity_name := Row.getD entity "entity_name" (.str "")
      entity_type := Row.getD entity "entity_type" (.str "")
      exposure_currency := Row.getD entity "currency_code" (.str "")
      currency_type := Row.getD entity "currency_type" (.str "")
      car_exemption := Row.getD entity "car_exemption_flag" (.str "")
      parent_child_nav_link := Row.getD entity "parent_child_nav_link" (.bool false)
      positions := p.2 })

/-- The USD-PB total: each row's `total_usd_deposits` is coerced with
`float(... or 0)` inside try/except — a failing coercion contributes
nothing. -/
def totalUsdPb (total_usd_pb_deposits_rows : List Row) : ℚ :=
  total_usd_pb_deposits_rows.foldl
    (fun acc row => acc + ((floatField row "total_usd_deposits").toOption.getD 0))
    0

/-- Numeric view of a scalar value for Python arithmetic/comparison
against a float; strings and `None` make the operation raise. -/
def valNum : Val → Option ℚ
  | .num q => some q
  | .bool b => some (if b then 1 else 0)
  | _ => none

/-- The `usd_pb_check` dict: comparing/subtracting the threshold value
raises when it is not numeric. -/
def mkUsdPbCheck (total : ℚ) (threshold : Val) : Except String UsdPbCheck :=
  match valNum threshold with
  | some t => .ok
      { total_usd_equivalent := total
        threshold := threshold
        status := if total > t then "FAIL" else "PASS"
        excess_amount := max 0 (total - t) }
  | none => .error "unsupported operand type for float and threshold value"

/-- The waterfall split by `waterfall_type`. -/
def waterfallSplit (waterfall_config_rows : List Row) : WaterfallRules :=
  { opening := waterfall_config_rows.filter
      (fun w => Row.getD w "waterfall_type" .null = .str "Opening")
    closing := waterfall_config_rows.filter
      (fun w => Row.getD w "waterfall_type" .null = .str "Closing") }

/-- `complete_structured_response`: builds all lookups, groups the
positions with per-position hedging state (which may raise), and
assembles the response sections. -/
def complete_structured_response
    (entities_rows : List EntityRow) (positions_rows currency_config_rows : List Row)
    (buffer_config_rows waterfall_config_rows overlay_config_rows : List Row)
    (hedging_framework_rows system_config_rows : List Row)
    (allocations_rows hedge_instructions_rows hedge_events_rows car_master_rows : List Row)
    (total_usd_pb_deposits_rows risk_monitoring_rows : List Row) (USD_PB_THRESHOLD : Val)
    (currency_rates_rows proxy_config_rows additional_rates_rows : List Row)
    (booking_model_config_rows murex_books_rows hedge_instruments_rows
      hedge_effectiveness_rows : List Row) :
    Except String StructuredResponse := do
  let entity_info_lookup := entityInfoLookup entities_rows
  let allocation_lookup := allocationLookup allocations_rows
  let hedge_relationships := hedgeRelationships hedge_events_rows
  let framework_rules := frameworkRules hedging_framework_rows
  let buffer_rules := bufferRules buffer_config_rows
  let car_data := carData car_master_rows
  let grouped ← buildGrouped positions_rows allocation_lookup hedge_relationships
    framework_rules buffer_rules car_data
  let entity_groups := buildEntityGroups grouped entity_info_lookup
  let total_usd_pb := totalUsdPb total_usd_pb_deposits_rows
  let usd_pb_check ← mkUsdPbCheck total_usd_pb USD_PB_THRESHOLD
  let waterfall_rules := waterfallSplit waterfall_config_rows
  .ok {
    entity_groups := entity_groups
    stage_1a_config := {
      buffer_configuration := buffer_config_rows
      waterfall_logic := waterfall_rules
      overlay_configuration := overlay_config_rows
      hedging_framework := hedging_framework_rows
      system_configuration := system_config_rows
      threshold_configuration := {
        usd_pb_threshold := USD_PB_THRESHOLD
        usd_pb_check := usd_pb_check } }
    stage_1b_data := {
      current_allocations := allocations_rows
      hedge_instructions_history := hedge_instructions_rows
      active_hedge_events := hedge_relationships
      car_master_data := car_master_rows }
    stage_2_config := {
      booking_model_config := booking_model_config_rows
      murex_books := murex_books_rows
      hedge_instruments := hedge_instruments_rows
      hedge_effectiveness := hedge_effectiveness_rows }
    risk_monitoring := risk_monitoring_rows
    currency_configuration := currency_config_rows
    currency_rates := currency_rates_rows
    proxy_configuration := proxy_config_rows
    additional_rates := additional_rates_rows }

/-! ## The data-retrieval layer (`fetch_complete_hedge_data`)

The Supabase store is modelled as an oracle: one `Except`-valued
result per executed query of the plan.  Query construction itself
never raises (the column-probing helpers `_sample_columns`,
`_order_if_exists`, `_eq_if_exists` swallow every failure), so only
execution outcomes are modelled.  The hedge-event query depends on the
derived entity-identifier set, so it is a function of that set; the
proxy-rate query is a function of the proxy currency value. -/

structure DB where
  entities : Except String (List EntityRow)
  positions : Except String (List Row)
  currency_config : Except String (List Row)
  rates_for : Val → Except String (List Row)
  buffer_config : Except String (List Row)
  waterfall_config : Except String (List Row)
  overlay_config : Except String (List Row)
  hedging_framework : Except String (List Row)
  system_config : Except String (List Row)
  allocations : Except String (List Row)
  hedge_instructions : Except String (List Row)
  hedge_events : List Val → Except String (List Row)
  hedge_events_plain : Except String (List Row)
  car_master : Except String (List Row)
  threshold : Except String (List Row)
  usd_pb : Except String (List Row)
  risk_monitoring : Except String (List Row)
  currency_rates : Except String (List Row)
  proxy_config : Except String (List Row)
  booking_models : Except String (List Row)
  murex_books : Except String (List Row)
  hedge_instruments : Except String (List Row)
  hedge_effectiveness : Except String (List Row)

/-- The derived entity-identifier set: truthy `entity_id` values of the
entity rows, falling back to the position rows when that set is empty
(Python set modelled as a first-seen-order deduplicated list). -/
def entityIdsOf (entities_rows : List EntityRow) (positions_rows : List Row) :
    List Val :=
  let fromEntities := pySet (entities_rows.filterMap (fun e =>
    let v := Row.getD e.fields "entity_id" .null
    if truthy v then some v else none))
  if fromEntities.isEmpty then
    pySet (positions_rows.filterMap (fun p =>
      let v := Row.getD p "entity_id" .null
      if truthy v then some v else none))
  else fromEntities

/-- The proxy-currency set: distinct truthy `proxy_currency` values of
the currency-configuration rows, with the exposure currency itself
discarded. -/
def proxyCurrencies (currency_config_rows : List Row) (exposure_currency : String) :
    List Val :=
  (pySet (currency_config_rows.filterMap (fun c =>
    let v := Row.getD c "proxy_currency" .null
    if truthy v then some v else none))).filter
    (fun v => v ≠ .str exposure_currency)

/-- The proxy fan-out loop: one rate query per proxy currency, row
lists concatenated in loop order; a failing query propagates. -/
def fetchAdditionalRates (rates_for : Val → Except String (List Row)) :
    List Val → Except String (List Row)
  | [] => .ok []
  | p :: ps => do
    let r ← rates_for p
    let rest ← fetchAdditionalRates rates_for ps
    .ok (r ++ rest)

/-- The body of `fetch_complete_hedge_data` inside its `try`: execute
the planned queries in source order (entity/position first, then
currency configuration, then the proxy fan-out, then the remaining
queries, with the hedge-event query retried once on failure using the
plain filter-free query), then assemble the structured response.
The unused instruction fields (`hedge_method`, `hedge_amount_order`,
`order_id`) and the optional filters only shape the opaque queries. -/
def runFetch (exposure_currency : String) (db : DB) :
    Except String StructuredResponse := do
  let entities_rows ← db.entities
  let positions_rows ← db.positions
  let entity_ids := entityIdsOf entities_rows positions_rows
  let currency_config_rows ← db.currency_config
  let additional_rates_rows ←
    fetchAdditionalRates db.rates_for (proxyCurrencies currency_config_rows exposure_currency)
  let buffer_config_rows ← db.buffer_config
  let waterfall_config_rows ← db.waterfall_config
  let overlay_config_rows ← db.overlay_config
  let hedging_framework_rows ← db.hedging_framework
  let system_config_rows ← db.system_config
  let allocations_rows ← db.allocations
  let hedge_instructions_rows ← db.hedge_instructions
  let hedge_events_rows ←
    match db.hedge_events entity_ids with
    | .ok rows => .ok rows
    | .error _ => db.hedge_events_plain
  let car_master_rows ← db.car_master
  let threshold_rows ← db.threshold
  let usd_pb_rows ← db.usd_pb
  let risk_monitoring_rows ← db.risk_monitoring
  let currency_rates_rows ← db.currency_rates
  let proxy_config_rows ← db.proxy_config
  let booking_model_config_rows ← db.booking_models
  let murex_books_rows ← db.murex_books
  let hedge_instruments_rows ← db.hedge_instruments
  let hedge_effectiveness_rows ← db.hedge_effectiveness
  let USD_PB_THRESHOLD : Val :=
    match threshold_rows with
    | [] => .num 150000
    | r :: _ => Row.getD r "warning_level" (.num 150000)
  complete_structured_response
    entities_rows positions_rows currency_config_rows
    buffer_config_rows waterfall_config_rows overlay_config_rows
    hedging_framework_rows system_config_rows
    allocations_rows hedge_instructions_rows hedge_events_rows car_master_rows
    usd_pb_rows risk_monitoring_rows USD_PB_THRESHOLD
    currency_rates_rows proxy_config_rows additional_rates_rows
    booking_model_config_rows murex_books_rows hedge_instruments_rows
    hedge_effectiveness_rows

/-- The error payload returned by the `except` branch of
`fetch_complete_hedge_data`: every sub-collection empty, plus the
exception's string form under `error`. -/
structure ErrorPayload where
  entity_groups : List EntityGroup
  stage_1a_config : Row
  stage_1b_data : Row
  stage_2_config : Row
  hedging_state : Row
  risk_monitoring : Row
  usd_pb_check : Row
  error : String
  deriving DecidableEq

/-- The literal error dict of the `except` branch. -/
def errorPayload (e : String) : ErrorPayload :=
  { entity_groups := []
    stage_1a_config := []
    stage_1b_data := []
    stage_2_config := []
    hedging_state := []
    risk_monitoring := []
    usd_pb_check := []
    error := e }

/-- What `fetch_complete_hedge_data` hands to its caller: either the
structured response (which carries no `error` key) or the error-shaped
payload. -/
inductive FetchResult where
  | success (d : StructuredResponse)
  | failure (p : ErrorPayload)
  deriving DecidableEq

/-- `fetch_complete_hedge_data`: the whole retrieval runs inside one
`try`; any uncaught exception is converted to the error payload. -/
def fetch_complete_hedge_data (exposure_currency : String) (db : DB) : FetchResult :=
  match runFetch exposure_currency db with
  | .ok d => .success d
  | .error e => .failure (errorPayload e)

/-! ## The request layer (`app/api/v1.py`) -/

/-- The validated inbound instruction. -/
structure InstructionPayload where
  instruction_type : String
  order_id : String
  sub_order_id : String
  exposure_currency : String
  hedge_amount_order : ℚ
  hedge_method : String
  nav_type : Option String
  currency_type : Option String
  deriving DecidableEq

/-- Stage-1A check flags. -/
structure Stage1AChecks where
  entity_check : Bool
  buffer_config_check : Bool
  waterfall_config_check : Bool
  hedging_framework_check : Bool
  usd_pb_check : Bool
  system_config_check : Bool
  deriving DecidableEq

/-- Stage-1B check flags. -/
structure Stage1BChecks where
  allocation_data_check : Bool
  hedge_history_check : Bool
  car_data_check : Bool
  active_events_check : Bool
  deriving DecidableEq

/-- Stage-2 check flags. -/
structure Stage2Checks where
  booking_model_check : Bool
  murex_books_check : Bool
  hedge_instruments_check : Bool
  hedge_effectiveness_check : Bool
  deriving DecidableEq

/-- The result of `perform_comprehensive_validations`. -/
structure Validations where
  stage_1a : Stage1AChecks
  stage_1b : Stage1BChecks
  stage_2 : Stage2Checks
  warnings : List String
  errors : List String
  deriving DecidableEq

/-- `perform_comprehensive_validations` on the aggregated response.
Presence is Python truthiness of each collection.  The waterfall check
tests the assembled `waterfall_logic` mapping, which always carries its
`opening`/`closing` keys and is therefore always truthy, so that check
always passes and its warning branch is unreachable.  Absence of
`system_configuration` has no `else` branch in the source: it records
no warning. -/
def perform_comprehensive_validations (d : StructuredResponse)
    (exposure_currency : String) : Validations :=
  let c1a := d.stage_1a_config
  let c1b := d.stage_1b_data
  let c2 := d.stage_2_config
  let usd := c1a.threshold_configuration.usd_pb_check
  { stage_1a := {
      entity_check := !d.entity_groups.isEmpty
      buffer_config_check := !c1a.buffer_configuration.isEmpty
      waterfall_config_check := true
      hedging_framework_check := !c1a.hedging_framework.isEmpty
      usd_pb_check := usd.status = "PASS"
      system_config_check := !c1a.system_configuration.isEmpty }
    stage_1b := {
      allocation_data_check := !c1b.current_allocations.isEmpty
      hedge_history_check := !c1b.hedge_instructions_history.isEmpty
      car_data_check := !c1b.car_master_data.isEmpty
      active_events_check := !c1b.active_hedge_events.isEmpty }
    stage_2 := {
      booking_model_check := !c2.booking_model_config.isEmpty
      murex_books_check := !c2.murex_books.isEmpty
      hedge_instruments_check := !c2.hedge_instruments.isEmpty
      hedge_effectiveness_check := !c2.hedge_effectiveness.isEmpty }
    warnings :=
      (if c1a.buffer_configuration.isEmpty then ["No buffer configuration found"] else []) ++
      (if c1a.hedging_framework.isEmpty then ["No hedging framework configuration found"] else []) ++
      (if usd.status = "PASS" then [] else ["USD PB deposit check: " ++ usd.status]) ++
      (if c1b.current_allocations.isEmpty then ["No current allocation data found"] else []) ++
      (if c1b.car_master_data.isEmpty then ["No CAR master data found"] else []) ++
      (if c2.booking_model_config.isEmpty then ["No booking model configuration found"] else []) ++
      (if c2.murex_books.isEmpty then ["No active Murex books found"] else [])
    errors :=
      if d.entity_groups.isEmpty then
        ["No entities found for currency " ++ exposure_currency]
      else [] }

/-- The completeness report of `calculate_data_completeness`. -/
structure Completeness where
  stage_1a_completeness : ℚ
  stage_1b_completeness : ℚ
  stage_2_completeness : ℚ
  overall_completeness : ℚ
  total_entities : ℕ
  currency_data_complete : Bool
  rates_data_complete : Bool
  deriving DecidableEq

/-- `calculate_stage_completeness(config_data, required_tables)`: 0.0
for a falsy config dict, else present-table count over total, times
100.  `tables` lists the truthiness of each expected sub-table in
declaration order. -/
def calculate_stage_completeness (config_nonempty : Bool) (tables : List Bool) : ℚ :=
  if !config_nonempty then 0
  else ((tables.count true : ℚ) / (tables.length : ℚ)) * 100

/-- Truthiness of the stage-1A expected sub-tables, in the order of
`stage_1a_tables`.  `waterfall_logic` is the assembled two-key mapping
and is always truthy. -/
def stage1aTables (c : Stage1AConfig) : List Bool :=
  [!c.buffer_configuration.isEmpty, true, !c.hedging_framework.isEmpty,
   !c.system_configuration.isEmpty, !c.overlay_configuration.isEmpty]

/-- Truthiness of the stage-1B expected sub-tables. -/
def stage1bTables (c : Stage1BData) : List Bool :=
  [!c.current_allocations.isEmpty, !c.hedge_instructions_history.isEmpty,
   !c.active_hedge_events.isEmpty, !c.car_master_data.isEmpty]

/-- Truthiness of the stage-2 expected sub-tables. -/
def stage2Tables (c : Stage2Config) : List Bool :=
  [!c.booking_model_config.isEmpty, !c.murex_books.isEmpty,
   !c.hedge_instruments.isEmpty, !c.hedge_effectiveness.isEmpty]

/-- `calculate_data_completeness`: per-stage scores rounded to one
decimal, overall score the mean of the three raw stage scores rounded
to one decimal.  The stage sections of the typed response always carry
their keys, so the falsy-config guard is never taken. -/
def calculate_data_completeness (d : StructuredResponse) : Completeness :=
  let stage_1a_score := calculate_stage_completeness true (stage1aTables d.stage_1a_config)
  let stage_1b_score := calculate_stage_completeness true (stage1bTables d.stage_1b_data)
  let stage_2_score := calculate_stage_completeness true (stage2Tables d.stage_2_config)
  { stage_1a_completeness := pyRound stage_1a_score 1
    stage_1b_completeness := pyRound stage_1b_score 1
    stage_2_completeness := pyRound stage_2_score 1
    overall_completeness := pyRound ((stage_1a_score + stage_1b_score + stage_2_score) / 3) 1
    total_entities := d.entity_groups.length
    currency_data_complete := !d.currency_configuration.isEmpty
    rates_data_complete := !d.currency_rates.isEmpty }

/-- The endpoint's JSON response (fields not produced on the error
path are optional). -/
structure ApiResponse where
  status : String
  complete_data : FetchResult
  payload : InstructionPayload
  validation_results : Option Validations
  data_completeness : Option Completeness
  message : String
  deriving DecidableEq

/-- `validate_and_book_hedge_inception`: fetch, branch on the presence
of the `error` key, then validate and score on success. -/
def validate_and_book_hedge_inception (payload : InstructionPayload) (db : DB) :
    ApiResponse :=
  match fetch_complete_hedge_data payload.exposure_currency db with
  | .failure p =>
    { status := "error"
      complete_data := .failure p
      payload := payload
      validation_results := none
      data_completeness := none
      message := "Complete data retrieval failed: " ++ p.error }
  | .success d =>
    { status := "success"
      complete_data := .success d
      payload := payload
      validation_results := some (perform_comprehensive_validations d payload.exposure_currency)
      data_completeness := some (calculate_data_completeness d)
      message := "Complete hedge data retrieval succeeded across all stages." }

/-! ## Concrete sample inputs used by witnesses and counterexamples -/

/-- Is an `Except` value a success? -/
def isOkE {ε α : Type} : Except ε α → Bool
  | .ok _ => true
  | .error _ => false

/-- A position row whose entity identifier has no entity-master row. -/
def orphanPosition : Row := [("entity_id", Val.str "E9"), ("nav_type", Val.str "COI")]

/-- A structured-response computation with one orphan position and no
entity rows. -/
def orphanOut : Except String StructuredResponse :=
  complete_structured_response [] [orphanPosition] [] [] [] [] [] [] [] [] [] []
    [] [] (.num 150000) [] [] [] [] [] [] []

/-- A nonempty sample row. -/
def sampleRow : Row := [("id", Val.num 1)]

/-- A sample structured response with stage 1A fully present, stage 1B
fully absent, and stage 2 half present. -/
def halfResponse : StructuredResponse :=
  { entity_groups := []
    stage_1a_config := {
      buffer_configuration := [sampleRow]
      waterfall_logic := { opening := [], closing := [] }
      overlay_configuration := [sampleRow]
      hedging_framework := [sampleRow]
      system_configuration := [sampleRow]
      threshold_configuration := {
        usd_pb_threshold := .num 150000
        usd_pb_check := {
          total_usd_equivalent := 0
          threshold := .num 150000
          status := "PASS"
          excess_amount := 0 } } }
    stage_1b_data := {
      current_allocations := []
      hedge_instructions_history := []
      active_hedge_events := []
      car_master_data := [] }
    stage_2_config := {
      booking_model_config := [sampleRow]
      murex_books := [sampleRow]
      hedge_instruments := []
      hedge_effectiveness := [] }
    risk_monitoring := []
    currency_configuration := []
    currency_rates := []
    proxy_configuration := []
    additional_rates := [] }

/-- A sample response with system configuration absent (and no
waterfall rows) but everything else present and the USD-PB check
passing. -/
def noSystemConfigResponse : StructuredResponse :=
  { entity_groups := [{
      entity_id := .str "E1"
      entity_name := .str "Entity One"
      entity_type := .str "Branch"
      exposure_currency := .str "HKD"
      currency_type := .str "Matched"
      car_exemption := .str "N"
      parent_child_nav_link := .bool false
      positions := [] }]
    stage_1a_config := {
      buffer_configuration := [sampleRow]
      waterfall_logic := { opening := [], closing := [] }
      overlay_configuration := [sampleRow]
      hedging_framework := [sampleRow]
      system_configuration := []
      threshold_configuration := {
        usd_pb_threshold := .num 150000
        usd_pb_check := {
          total_usd_equivalent := 0
          threshold := .num 150000
          status := "PASS"
          excess_amount := 0 } } }
    stage_1b_data := {
      current_allocations := [sampleRow]
      hedge_instructions_history := [sampleRow]
      active_hedge_events := [(Val.str "E1", [sampleRow])]
      car_master_data := [sampleRow] }
    stage_2_config := {
      booking_model_config := [sampleRow]
      murex_books := [sampleRow]
      hedge_instruments := [sampleRow]
      hedge_effectiveness := [sampleRow] }
    risk_monitoring := []
    currency_configuration := []
    currency_rates := []
    proxy_configuration := []
    additional_rates := [] }

/-- A sample response with no entity groups, no buffer configuration,
no hedging framework and a failing USD-PB check. -/
def failingChecksResponse : StructuredResponse :=
  { entity_groups := []
    stage_1a_config := {
      buffer_configuration := []
      waterfall_logic := { opening := [], closing := [] }
      overlay_configuration := []
      hedging_framework := []
      system_configuration := [sampleRow]
      threshold_configuration := {
        usd_pb_threshold := .num 150000
        usd_pb_check := {
          total_usd_equivalent := 200000
          threshold := .num 150000
          status := "FAIL"
          excess_amount := 50000 } } }
    stage_1b_data := {
      current_allocations := [sampleRow]
      hedge_instructions_history := []
      active_hedge_events := []
      car_master_data := [sampleRow] }
    stage_2_config := {
      booking_model_config := [sampleRow]
      murex_books := [sampleRow]
      hedge_instruments := []
      hedge_effectiveness := [] }
    risk_monitoring := []
    currency_configuration := []
    currency_rates := []
    proxy_configuration := []
    additional_rates := [] }

/-- A store oracle whose every query succeeds with the given rows. -/
def mkOkDB (er : List EntityRow) (pr cc : List Row) (rates : Val → List Row)
    (bu wa ov hf sc al hi he hep cm th up rm cr pc bm mb hin hef : List Row) : DB :=
  { entities := .ok er
    positions := .ok pr
    currency_config := .ok cc
    rates_for := fun v => .ok (rates v)
    buffer_config := .ok bu
    waterfall_config := .ok wa
    overlay_config := .ok ov
    hedging_framework := .ok hf
    system_config := .ok sc
    allocations := .ok al
    hedge_instructions := .ok hi
    hedge_events := fun _ => .ok he
    hedge_events_plain := .ok hep
    car_master := .ok cm
    threshold := .ok th
    usd_pb := .ok up
    risk_monitoring := .ok rm
    currency_rates := .ok cr
    proxy_config := .ok pc
    booking_models := .ok bm
    murex_books := .ok mb
    hedge_instruments := .ok hin
    hedge_effectiveness := .ok hef }

/-- A small all-successful store with one proxy-currency row. -/
def tinyDB : DB :=
  mkOkDB [] [] [[("proxy_currency", Val.str "EUR")]] (fun _ => [])
    [] [] [] [] [] [] [] [] [] [] [] [] [] [] [] [] [] [] []

/-- A store whose very first (entity) query fails. -/
def boomDB : DB := { tinyDB with entities := .error "boom" }

/-- A standard validated instruction. -/
def stdPayload : InstructionPayload :=
  { instruction_type := "I"
    order_id := "ORD_001"
    sub_order_id := "SUB_001"
    exposure_currency := "USD"
    hedge_amount_order := 5000000
    hedge_method := "COH"
    nav_type := some "COI"
    currency_type := none }

/-! ## Shared lemmas -/

/-- Decidable equality of `Except` results. -/
instance instDecEqExcept {ε α : Type} [DecidableEq ε] [DecidableEq α] :
    DecidableEq (Except ε α)
  | .ok a, .ok b =>
    if h : a = b then .isTrue (by rw [h])
    else .isFalse (by intro hh; cases hh; exact h rfl)
  | .error a, .error b =>
    if h : a = b then .isTrue (by rw [h])
    else .isFalse (by intro hh; cases hh; exact h rfl)
  | .ok _, .error _ => .isFalse (by intro hh; cases hh)
  | .error _, .ok _ => .isFalse (by intro hh; cases hh)

/-- Bind on a successful `Except` reduces. -/
theorem exceptBind_ok {α β : Type} {ε : Type} (a : α) (f : α → Except ε β) :
    (Except.ok a : Except ε α) >>= f = f a := rfl

/-- Bind on a failed `Except` short-circuits. -/
theorem exceptBind_error {α β : Type} {ε : Type} (e : ε) (f : α → Except ε β) :
    (Except.error e : Except ε α) >>= f = .error e := rfl

/-! ## C1 -/

/-- C1, counterexample: the claim says every non-numeric amount field is
coerced to 0, but a truthy non-numeric `car_amount_distribution` makes the
Python `float` coercion raise, so no hedging state (and in particular no
`calculated_available_amount`) is produced at all. -/
theorem calculated_available_nonnumeric_raises :
    calculate_complete_hedging_state []
      [("car_amount_distribution", Val.str "abc")] [] [] [] []
      = .error "could not convert string to float: abc" := by
  decide

/-- C1 (amended): whenever every amount coercion succeeds (the field is
numeric, a numeric string, a boolean, missing, or falsy — missing and falsy
values coerced to 0), the computed `calculated_available_amount` equals
exactly `current_position - car_amount_distribution + manual_overlay_amount
- buffer_amount - already_hedged_amount`, with this operator order, for all
inputs, including negative results (not clamped). -/
theorem calculated_available_amount_formula
    (position allocation : Row) (hr : List Row) (fr br ci : Row)
    (cp aa av hp car mo ba tn : ℚ)
    (h1 : floatField position "current_position" = .ok cp)
    (h2 : floatField allocation "hedge_amount_allocation" = .ok aa)
    (h3 : floatField allocation "available_amount_for_hedging" = .ok av)
    (h4 : floatField allocation "hedged_position" = .ok hp)
    (h5 : floatField allocation "car_amount_distribution" = .ok car)
    (h6 : floatField allocation "manual_overlay_amount" = .ok mo)
    (h7 : floatField allocation "buffer_amount" = .ok ba)
    (h8 : sumNotional hr = .ok tn) :
    ∃ hs, calculate_complete_hedging_state position allocation hr fr br ci = .ok hs ∧
      hs.calculated_available_amount = cp - car + mo - ba - hp ∧
      hs.already_hedged_amount = hp := by
  simp only [calculate_complete_hedging_state, h1, h2, h3, h4, h5, h6, h7, h8,
    exceptBind_ok]
  exact ⟨_, rfl, rfl, rfl⟩

/-- C1 witness: the spec's end-to-end scenario numbers. -/
theorem calculated_available_amount_formula_witness :
    ∃ hs, calculate_complete_hedging_state
        [("current_position", Val.num 1000000)]
        [("hedged_position", Val.num 0), ("car_amount_distribution", Val.num 50000),
         ("buffer_amount", Val.num 20000), ("manual_overlay_amount", Val.num 0),
         ("available_amount_for_hedging", Val.num 100)] [] [] [] [] = .ok hs ∧
      hs.calculated_available_amount = 930000 ∧
      hs.already_hedged_amount = 0 := by
  have h := calculated_available_amount_formula
    [("current_position", Val.num 1000000)]
    [("hedged_position", Val.num 0), ("car_amount_distribution", Val.num 50000),
     ("buffer_amount", Val.num 20000), ("manual_overlay_amount", Val.num 0),
     ("available_amount_for_hedging", Val.num 100)] [] [] [] []
    1000000 0 100 0 50000 0 20000 0
    (by decide) (by decide) (by decide) (by decide)
    (by decide) (by decide) (by decide) (by decide)
  obtain ⟨hs, hok, hcalc, hhp⟩ := h
  exact ⟨hs, hok, by rw [hcalc]; norm_num, hhp⟩

/-! ## C2 -/

/-- C2: `hedging_status` is classified by the exact precedence
`already_hedged_amount ≥ current_position → Fully_Hedged`, else
`already_hedged_amount > 0 → Partially_Hedged`, else
`available_for_hedging ≤ 0 → Not_Available`, else `Available`; in
particular a positive position with zero hedged amount and negative
available-for-hedging reports `Not_Available`, not `Available`. -/
theorem hedging_status_precedence
    (position allocation : Row) (hr : List Row) (fr br ci : Row)
    (cp aa av hp car mo ba tn : ℚ)
    (h1 : floatField position "current_position" = .ok cp)
    (h2 : floatField allocation "hedge_amount_allocation" = .ok aa)
    (h3 : floatField allocation "available_amount_for_hedging" = .ok av)
    (h4 : floatField allocation "hedged_position" = .ok hp)
    (h5 : floatField allocation "car_amount_distribution" = .ok car)
    (h6 : floatField allocation "manual_overlay_amount" = .ok mo)
    (h7 : floatField allocation "buffer_amount" = .ok ba)
    (h8 : sumNotional hr = .ok tn) :
    ∃ hs, calculate_complete_hedging_state position allocation hr fr br ci = .ok hs ∧
      hs.already_hedged_amount = hp ∧
      hs.available_for_hedging = av ∧
      hs.hedging_status =
        (if hp ≥ cp then "Fully_Hedged"
         else if hp > 0 then "Partially_Hedged"
         else if av ≤ 0 then "Not_Available"
         else "Available") ∧
      (0 < cp → hp = 0 → av < 0 → hs.hedging_status = "Not_Available") := by
  simp only [calculate_complete_hedging_state, h1, h2, h3, h4, h5, h6, h7, h8,
    exceptBind_ok]
  refine ⟨_, rfl, rfl, rfl, rfl, ?_⟩
  intro hcp hhp hav
  show (if hp ≥ cp then "Fully_Hedged"
    else if hp > 0 then "Partially_Hedged"
    else if av ≤ 0 then "Not_Available"
    else "Available") = "Not_Available"
  rw [if_neg (by simp only [ge_iff_le, not_le]; linarith),
    if_neg (by rw [hhp]; simp), if_pos (by linarith)]

/-- C2 witness: a 100 position with zero hedged amount and
available-for-hedging −10 classifies as `Not_Available`. -/
theorem hedging_status_precedence_witness :
    ∃ hs, calculate_complete_hedging_state
        [("current_position", Val.num 100)]
        [("hedged_position", Val.num 0),
         ("available_amount_for_hedging", Val.num (-10))] [] [] [] [] = .ok hs ∧
      hs.hedging_status = "Not_Available" := by
  have h := hedging_status_precedence
    [("current_position", Val.num 100)]
    [("hedged_position", Val.num 0),
     ("available_amount_for_hedging", Val.num (-10))] [] [] [] []
    100 0 (-10) 0 0 0 0 0
    (by decide) (by decide) (by decide) (by decide)
    (by decide) (by decide) (by decide) (by decide)
  obtain ⟨hs, hok, _, _, _, hpart⟩ := h
  exact ⟨hs, hok, hpart (by norm_num) rfl (by norm_num)⟩

/-! ## C3 -/

/-- Folding over a filtered list equals folding over the full list when
the step is the identity on rows failing the predicate. -/
theorem foldlM_filter_skip {σ : Type} (f : σ → Row → Except String σ)
    (pred : Row → Bool)
    (hskip : ∀ acc r, pred r = false → f acc r = pure acc) :
    ∀ (rows : List Row) (acc : σ),
      (rows.filter pred).foldlM f acc = rows.foldlM f acc := by
  intro rows
  induction rows with
  | nil => intro acc; rfl
  | cons r t ih =>
    intro acc
    by_cases hp : pred r = true
    · rw [List.filter_cons_of_pos hp]
      show (f acc r >>= fun a => (t.filter pred).foldlM f a)
        = (f acc r >>= fun a => t.foldlM f a)
      cases hf : f acc r with
      | error e => rfl
      | ok a => simp only [exceptBind_ok]; exact ih a
    · rw [List.filter_cons_of_neg (by simpa using hp)]
      rw [ih acc]
      show t.foldlM f acc = f acc r >>= fun a => t.foldlM f a
      rw [hskip acc r (by simpa using hp)]
      rfl

/-- The grouping loop ignores position rows whose `entity_id` is
missing or falsy. -/
theorem buildGrouped_filter (positions_rows : List Row)
    (alloc hrel : List (Val × List Row)) (frules brules cdata : List (Val × Row)) :
    buildGrouped (positions_rows.filter
        (fun p => truthy (Row.getD p "entity_id" .null)))
      alloc hrel frules brules cdata
    = buildGrouped positions_rows alloc hrel frules brules cdata := by
  apply foldlM_filter_skip
  intro acc r h
  simp only [groupStep, h, Bool.false_eq_true, if_false]

/-- C3: every position row lacking a (truthy) entity identifier is
dropped without raising — the whole aggregated response over any row
set equals the response over the rows that do carry an entity
identifier, so such a row appears in no entity group and in no other
part of the response. -/
theorem positions_without_entity_id_dropped
    (entities_rows : List EntityRow) (positions_rows currency_config_rows : List Row)
    (buffer_config_rows waterfall_config_rows overlay_config_rows : List Row)
    (hedging_framework_rows system_config_rows : List Row)
    (allocations_rows hedge_instructions_rows hedge_events_rows car_master_rows : List Row)
    (total_usd_pb_deposits_rows risk_monitoring_rows : List Row) (USD_PB_THRESHOLD : Val)
    (currency_rates_rows proxy_config_rows additional_rates_rows : List Row)
    (booking_model_config_rows murex_books_rows hedge_instruments_rows
      hedge_effectiveness_rows : List Row) :
    complete_structured_response entities_rows
      (positions_rows.filter (fun p => truthy (Row.getD p "entity_id" .null)))
      currency_config_rows
      buffer_config_rows waterfall_config_rows overlay_config_rows
      hedging_framework_rows system_config_rows
      allocations_rows hedge_instructions_rows hedge_events_rows car_master_rows
      total_usd_pb_deposits_rows risk_monitoring_rows USD_PB_THRESHOLD
      currency_rates_rows proxy_config_rows additional_rates_rows
      booking_model_config_rows murex_books_rows hedge_instruments_rows
      hedge_effectiveness_rows
    = complete_structured_response entities_rows positions_rows currency_config_rows
      buffer_config_rows waterfall_config_rows overlay_config_rows
      hedging_framework_rows system_config_rows
      allocations_rows hedge_instructions_rows hedge_events_rows car_master_rows
      total_usd_pb_deposits_rows risk_monitoring_rows USD_PB_THRESHOLD
      currency_rates_rows proxy_config_rows additional_rates_rows
      booking_model_config_rows murex_books_rows hedge_instruments_rows
      hedge_effectiveness_rows := by
  simp only [complete_structured_response, buildGrouped_filter]

/-! ## C9 -/

/-- A key absent from a dict looks up to `none`. -/
theorem dictGet_eq_none {β : Type} (d : List (Val × β)) (k : Val)
    (h : d.any (fun p => p.1 = k) = false) : dictGet d k = none := by
  induction d with
  | nil => rfl
  | cons p t ih =>
    simp only [List.any_cons, Bool.or_eq_false_iff] at h
    simp only [dictGet, List.find?]
    rw [h.1]
    exact ih h.2

/-- The in-place-update branch of dict assignment stores the value at
the assigned key. -/
theorem dictGet_mapSet_self {β : Type} (d : List (Val × β)) (k : Val) (v : β)
    (h : d.any (fun p => p.1 = k) = true) :
    dictGet (d.map (fun p => if p.1 = k then (k, v) else p)) k = some v := by
  induction d with
  | nil => simp at h
  | cons p t ih =>
    by_cases hp : p.1 = k
    · simp only [List.map_cons, if_pos hp]
      simp [dictGet, List.find?]
    · simp only [List.any_cons, decide_eq_false hp, Bool.false_or] at h
      simp only [List.map_cons, if_neg hp, dictGet, List.find?, decide_eq_false hp]
      exact ih h

/-- The in-place-update branch of dict assignment leaves other keys
unchanged. -/
theorem dictGet_mapSet_ne {β : Type} (d : List (Val × β)) (k k2 : Val) (v : β)
    (h : k2 ≠ k) :
    dictGet (d.map (fun p => if p.1 = k then (k, v) else p)) k2 = dictGet d k2 := by
  induction d with
  | nil => rfl
  | cons p t ih =>
    by_cases hp : p.1 = k
    · have hk2 : ¬ k = k2 := fun hh => h hh.symm
      have hp2 : ¬ p.1 = k2 := by rw [hp]; exact hk2
      simp only [List.map_cons, if_pos hp, dictGet, List.find?,
        decide_eq_false hk2, decide_eq_false hp2]
      exact ih
    · simp only [List.map_cons, if_neg hp, dictGet, List.find?]
      by_cases hp2 : p.1 = k2
      · rw [decide_eq_true hp2]
      · rw [decide_eq_false hp2]
        exact ih

/-- Appending a fresh binding does not change lookups of other keys. -/
theorem dictGet_append_ne {β : Type} (d : List (Val × β)) (k k2 : Val) (v : β)
    (h : k2 ≠ k) : dictGet (d ++ [(k, v)]) k2 = dictGet d k2 := by
  induction d with
  | nil => simp [dictGet, List.find?, decide_eq_false (fun hh => h hh.symm : ¬ k = k2)]
  | cons p t ih =>
    simp only [List.cons_append, dictGet, List.find?]
    by_cases hp : p.1 = k2
    · rw [decide_eq_true hp]
    · rw [decide_eq_false hp]
      exact ih

/-- Appending a binding for a previously absent key makes it found. -/
theorem dictGet_append_self {β : Type} (d : List (Val × β)) (k : Val) (v : β)
    (h : d.any (fun p => p.1 = k) = false) :
    dictGet (d ++ [(k, v)]) k = some v := by
  induction d with
  | nil => simp [dictGet, List.find?]
  | cons p t ih =>
    simp only [List.any_cons, Bool.or_eq_false_iff] at h
    simp only [List.cons_append, dictGet, List.find?]
    rw [h.1]
    exact ih h.2

/-- Dict assignment stores the value at its key. -/
theorem dictGet_dictSet_self {β : Type} (d : List (Val × β)) (k : Val) (v : β) :
    dictGet (dictSet d k v) k = some v := by
  unfold dictSet
  by_cases h : d.any (fun p => p.1 = k) = true
  · rw [if_pos h]; exact dictGet_mapSet_self d k v h
  · rw [if_neg h]; exact dictGet_append_self d k v (Bool.eq_false_iff.mpr h)

/-- Dict assignment leaves other keys unchanged. -/
theorem dictGet_dictSet_ne {β : Type} (d : List (Val × β)) (k k2 : Val) (v : β)
    (h : k2 ≠ k) : dictGet (dictSet d k v) k2 = dictGet d k2 := by
  unfold dictSet
  by_cases hh : d.any (fun p => p.1 = k) = true
  · rw [if_pos hh]; exact dictGet_mapSet_ne d k k2 v h
  · rw [if_neg hh]; exact dictGet_append_ne d k k2 v h

/-- Dict assignment never creates a duplicate key. -/
theorem dictSet_keys_nodup {β : Type} (d : List (Val × β)) (k : Val) (v : β)
    (h : (d.map Prod.fst).Nodup) : ((dictSet d k v).map Prod.fst).Nodup := by
  unfold dictSet
  by_cases hh : d.any (fun p => p.1 = k) = true
  · rw [if_pos hh]
    have : (d.map (fun p => if p.1 = k then (k, v) else p)).map Prod.fst
        = d.map Prod.fst := by
      rw [List.map_map]
      apply List.map_congr_left
      intro p _
      by_cases hp : p.1 = k
      · simp [hp]
      · simp [hp]
    rw [this]
    exact h
  · rw [if_neg hh]
    have hk : k ∉ d.map Prod.fst := by
      intro hmem
      simp only [List.mem_map] at hmem
      obtain ⟨p, hp, hpk⟩ := hmem
      exact absurd (List.any_eq_true.mpr ⟨p, hp, by simp [hpk]⟩) hh
    rw [List.map_append]
    simp only [List.map_cons, List.map_nil]
    exact List.Nodup.append h (List.nodup_singleton k)
      (fun a ha hb => by
        simp only [List.mem_singleton] at hb
        subst hb
        exact hk ha)

/-- `getLast?` of a cons in eliminator form. -/
theorem getLast?_cons_elim {α : Type} (r : α) (l : List α) :
    (r :: l).getLast? = (l.getLast?).elim (some r) some := by
  cases l with
  | nil => rfl
  | cons a b =>
    rw [List.getLast?_cons_cons]
    cases hc : (a :: b).getLast? with
    | none =>
      rw [List.getLast?_eq_none_iff] at hc
      exact absurd hc (by simp)
    | some x => rfl

/-- The generic last-write-wins fold underlying `frameworkRules` and
`bufferRules`: the retained row per key is the last matching one. -/
theorem lastWins_fold (rows : List Row) (d : List (Val × Row)) (eid : Val)
    (ht : truthy eid = true) :
    dictGet (rows.foldl (fun acc rule =>
        if truthy (Row.getD rule "entity_id" .null) then
          dictSet acc (Row.getD rule "entity_id" .null) rule
        else acc) d) eid
    = ((rows.filter (fun r => Row.getD r "entity_id" .null = eid)).getLast?).elim
        (dictGet d eid) some := by
  induction rows generalizing d with
  | nil => rfl
  | cons r t ih =>
    simp only [List.foldl_cons]
    by_cases hr : Row.getD r "entity_id" .null = eid
    · rw [List.filter_cons_of_pos (by simp [hr]), hr, if_pos ht,
        ih (dictSet d eid r), getLast?_cons_elim]
      cases (t.filter (fun q => Row.getD q "entity_id" .null = eid)).getLast? with
      | none =>
        simp only [Option.elim]
        exact dictGet_dictSet_self d eid r
      | some x => rfl
    · rw [List.filter_cons_of_neg (by simp [hr])]
      by_cases htr : truthy (Row.getD r "entity_id" .null) = true
      · rw [if_pos htr, ih]
        cases (t.filter (fun q => Row.getD q "entity_id" .null = eid)).getLast? with
        | none =>
          simp only [Option.elim]
          exact dictGet_dictSet_ne d _ eid r (fun hh => hr hh.symm)
        | some x => rfl
      · rw [if_neg htr, ih]

/-- The last-write-wins fold keeps at most one entry per key. -/
theorem lastWins_fold_nodup (rows : List Row) (d : List (Val × Row))
    (hd : (d.map Prod.fst).Nodup) :
    ((rows.foldl (fun acc rule =>
        if truthy (Row.getD rule "entity_id" .null) then
          dictSet acc (Row.getD rule "entity_id" .null) rule
        else acc) d).map Prod.fst).Nodup := by
  induction rows generalizing d with
  | nil => exact hd
  | cons r t ih =>
    simp only [List.foldl_cons]
    by_cases htr : truthy (Row.getD r "entity_id" .null) = true
    · rw [if_pos htr]
      exact ih _ (dictSet_keys_nodup d _ r hd)
    · rw [if_neg htr]
      exact ih d hd

/-- C9, counterexample: two framework rules for the same entity — the
lookup retains the second (last) one, not the first as the claim
states. -/
theorem framework_rule_first_match_false :
    frameworkRules
      [[("entity_id", Val.str "E1"), ("framework_type", Val.str "A")],
       [("entity_id", Val.str "E1"), ("framework_type", Val.str "B")]]
    = [(Val.str "E1",
        [("entity_id", Val.str "E1"), ("framework_type", Val.str "B")])]
    ∧ ([("entity_id", Val.str "E1"), ("framework_type", Val.str "B")] : Row)
      ≠ [("entity_id", Val.str "E1"), ("framework_type", Val.str "A")] := by
  constructor
  · rfl
  · decide

/-- C9 (amended): when multiple framework-rule rows carry the same
(truthy) entity identifier, at most one rule is retained per entity in
the framework-rule lookup, and the retained rule is the LAST matching
row (plain dict assignment: last write wins). -/
theorem framework_rule_last_wins (hedging_framework_rows : List Row) (eid : Val)
    (r : Row) (ht : truthy eid = true)
    (hlast : (hedging_framework_rows.filter
        (fun q => Row.getD q "entity_id" .null = eid)).getLast? = some r) :
    dictGet (frameworkRules hedging_framework_rows) eid = some r ∧
    ((frameworkRules hedging_framework_rows).map Prod.fst).Nodup := by
  constructor
  · rw [frameworkRules, lastWins_fold hedging_framework_rows [] eid ht, hlast]
    rfl
  · exact lastWins_fold_nodup hedging_framework_rows [] (by simp)

/-- C9 witness: the counterexample rows, via the amended theorem. -/
theorem framework_rule_last_wins_witness :
    dictGet (frameworkRules
      [[("entity_id", Val.str "E1"), ("framework_type", Val.str "A")],
       [("entity_id", Val.str "E1"), ("framework_type", Val.str "B")]])
      (Val.str "E1")
    = some [("entity_id", Val.str "E1"), ("framework_type", Val.str "B")] := by
  have h := framework_rule_last_wins
    [[("entity_id", Val.str "E1"), ("framework_type", Val.str "A")],
     [("entity_id", Val.str "E1"), ("framework_type", Val.str "B")]]
    (Val.str "E1")
    [("entity_id", Val.str "E1"), ("framework_type", Val.str "B")]
    (by decide) (by decide)
  exact h.1

/-! ## C10 -/

/-- Key presence as `any` versus key-list membership. -/
theorem any_key_iff {β : Type} (d : List (Val × β)) (k : Val) :
    d.any (fun p => p.1 = k) = true ↔ k ∈ d.map Prod.fst := by
  simp [List.any_eq_true, List.mem_map]

/-- The keys after a `defaultdict` append. -/
theorem dictAppend_keys {β : Type} (d : List (Val × List β)) (k : Val) (v : β) :
    (dictAppend d k v).map Prod.fst =
      if d.any (fun p => p.1 = k) then d.map Prod.fst
      else d.map Prod.fst ++ [k] := by
  unfold dictAppend
  split_ifs with h
  · rw [List.map_map]
    apply List.map_congr_left
    intro p _
    by_cases hp : p.1 = k
    · simp [hp]
    · simp [hp]
  · simp

/-- A `defaultdict` append preserves existing keys. -/
theorem dictAppend_keys_mono {β : Type} (d : List (Val × List β)) (k k0 : Val) (v : β)
    (h : k ∈ d.map Prod.fst) : k ∈ (dictAppend d k0 v).map Prod.fst := by
  rw [dictAppend_keys]
  split_ifs
  · exact h
  · exact List.mem_append_left _ h

/-- A `defaultdict` append makes its own key present. -/
theorem dictAppend_keys_self {β : Type} (d : List (Val × List β)) (k : Val) (v : β) :
    k ∈ (dictAppend d k v).map Prod.fst := by
  rw [dictAppend_keys]
  split_ifs with h
  · exact (any_key_iff d k).mp h
  · exact List.mem_append_right _ (List.mem_singleton.mpr rfl)

/-- Deconstruct a successful bind-then-pure `Except` computation. -/
theorem bind_pure_ok {α β : Type} {e : Except String α} {f : α → β} {g : β}
    (h : (e >>= fun a => pure (f a)) = Except.ok g) : ∃ a, e = .ok a ∧ g = f a := by
  cases e with
  | error er => exact absurd h (by simp [exceptBind_error])
  | ok a =>
    rw [exceptBind_ok] at h
    cases h
    exact ⟨a, rfl, rfl⟩

/-- A successful grouping step preserves accumulated keys and records
the key of a kept row. -/
theorem groupStep_keys
    (alloc hrel : List (Val × List Row)) (frules brules cdata : List (Val × Row))
    (acc g : List (Val × List PositionEntry)) (pos : Row)
    (hok : groupStep alloc hrel frules brules cdata acc pos = .ok g) :
    (∀ k, k ∈ acc.map Prod.fst → k ∈ g.map Prod.fst) ∧
    (truthy (Row.getD pos "entity_id" .null) = true →
      Row.getD pos "entity_id" .null ∈ g.map Prod.fst) := by
  unfold groupStep at hok
  by_cases ht : truthy (Row.getD pos "entity_id" .null) = true
  · rw [if_pos ht] at hok
    obtain ⟨hs, _, hg⟩ := bind_pure_ok hok
    subst hg
    exact ⟨fun k hk => dictAppend_keys_mono acc k _ _ hk,
      fun _ => dictAppend_keys_self acc _ _⟩
  · rw [if_neg ht] at hok
    have hg : g = acc := by cases hok; rfl
    subst hg
    exact ⟨fun k hk => hk, fun hcon => absurd hcon ht⟩

/-- A successful grouping fold preserves accumulated keys. -/
theorem buildGroupedFold_keys_mono
    (alloc hrel : List (Val × List Row)) (frules brules cdata : List (Val × Row))
    (rows : List Row) :
    ∀ (acc g : List (Val × List PositionEntry)),
      rows.foldlM (groupStep alloc hrel frules brules cdata) acc = .ok g →
      ∀ k, k ∈ acc.map Prod.fst → k ∈ g.map Prod.fst := by
  induction rows with
  | nil =>
    intro acc g hok k hk
    cases hok
    exact hk
  | cons r t ih =>
    intro acc g hok k hk
    rw [List.foldlM_cons] at hok
    cases hga : groupStep alloc hrel frules brules cdata acc r with
    | error e =>
      rw [hga] at hok
      exact absurd hok (by simp [exceptBind_error])
    | ok a =>
      rw [hga, exceptBind_ok] at hok
      exact ih a g hok k ((groupStep_keys alloc hrel frules brules cdata acc a r hga).1 k hk)

/-- Every kept position row's entity identifier is a key of a
successful grouping fold's result. -/
theorem buildGroupedFold_mem
    (alloc hrel : List (Val × List Row)) (frules brules cdata : List (Val × Row))
    (rows : List Row) :
    ∀ (acc g : List (Val × List PositionEntry)) (pos : Row),
      rows.foldlM (groupStep alloc hrel frules brules cdata) acc = .ok g →
      pos ∈ rows → truthy (Row.getD pos "entity_id" .null) = true →
      Row.getD pos "entity_id" .null ∈ g.map Prod.fst := by
  induction rows with
  | nil =>
    intro acc g pos _ hmem
    exact absurd hmem (List.not_mem_nil pos)
  | cons r t ih =>
    intro acc g pos hok hmem ht
    rw [List.foldlM_cons] at hok
    cases hga : groupStep alloc hrel frules brules cdata acc r with
    | error e =>
      rw [hga] at hok
      exact absurd hok (by simp [exceptBind_error])
    | ok a =>
      rw [hga, exceptBind_ok] at hok
      rcases List.mem_cons.mp hmem with hr | htl
      · subst hr
        exact buildGroupedFold_keys_mono alloc hrel frules brules cdata t a g hok _
          ((groupStep_keys alloc hrel frules brules cdata acc a pos hga).2 ht)
      · exact ih a g pos hok htl ht

/-- C10: a position whose (truthy) entity identifier has no row in the
entity-metadata lookup still yields an entity group for that
identifier, with `entity_name`, `entity_type`, `exposure_currency`,
`currency_type` and `car_exemption` defaulting to the empty string and
`parent_child_nav_link` defaulting to `False`. -/
theorem missing_entity_metadata_defaults
    (entities_rows : List EntityRow) (positions_rows currency_config_rows : List Row)
    (buffer_config_rows waterfall_config_rows overlay_config_rows : List Row)
    (hedging_framework_rows system_config_rows : List Row)
    (allocations_rows hedge_instructions_rows hedge_events_rows car_master_rows : List Row)
    (total_usd_pb_deposits_rows risk_monitoring_rows : List Row) (USD_PB_THRESHOLD : Val)
    (currency_rates_rows proxy_config_rows additional_rates_rows : List Row)
    (booking_model_config_rows murex_books_rows hedge_instruments_rows
      hedge_effectiveness_rows : List Row)
    (eid : Val) (pos : Row) (resp : StructuredResponse)
    (hmem : pos ∈ positions_rows)
    (heid : Row.getD pos "entity_id" .null = eid)
    (ht : truthy eid = true)
    (hmiss : dictGet (entityInfoLookup entities_rows) eid = none)
    (hok : complete_structured_response entities_rows positions_rows currency_config_rows
      buffer_config_rows waterfall_config_rows overlay_config_rows
      hedging_framework_rows system_config_rows
      allocations_rows hedge_instructions_rows hedge_events_rows car_master_rows
      total_usd_pb_deposits_rows risk_monitoring_rows USD_PB_THRESHOLD
      currency_rates_rows proxy_config_rows additional_rates_rows
      booking_model_config_rows murex_books_rows hedge_instruments_rows
      hedge_effectiveness_rows = .ok resp) :
    ∃ g ∈ resp.entity_groups, g.entity_id = eid ∧
      g.entity_name = .str "" ∧ g.entity_type = .str "" ∧
      g.exposure_currency = .str "" ∧ g.currency_type = .str "" ∧
      g.car_exemption = .str "" ∧ g.parent_child_nav_link = .bool false := by
  simp only [complete_structured_response] at hok
  cases hbg : buildGrouped positions_rows (allocationLookup allocations_rows)
      (hedgeRelationships hedge_events_rows) (frameworkRules hedging_framework_rows)
      (bufferRules buffer_config_rows) (carData car_master_rows) with
  | error e =>
    rw [hbg] at hok
    exact absurd hok (by simp [exceptBind_error])
  | ok grouped =>
    rw [hbg, exceptBind_ok] at hok
    cases husd : mkUsdPbCheck (totalUsdPb total_usd_pb_deposits_rows) USD_PB_THRESHOLD with
    | error e =>
      rw [husd] at hok
      exact absurd hok (by simp [exceptBind_error])
    | ok check =>
      rw [husd, exceptBind_ok] at hok
      have hresp : resp.entity_groups
          = buildEntityGroups grouped (entityInfoLookup entities_rows) := by
        cases hok
        rfl
      have hkey : eid ∈ grouped.map Prod.fst := by
        have := buildGroupedFold_mem (allocationLookup allocations_rows)
          (hedgeRelationships hedge_events_rows) (frameworkRules hedging_framework_rows)
          (bufferRules buffer_config_rows) (carData car_master_rows)
          positions_rows [] grouped pos hbg hmem (by rw [heid]; exact ht)
        rw [heid] at this
        exact this
      obtain ⟨p, hp, hpk⟩ := List.mem_map.mp hkey
      obtain ⟨pe, pnavs⟩ := p
      simp only at hpk
      subst hpk
      refine ⟨{ entity_id := pe
                entity_name := Row.getD ((dictGet (entityInfoLookup entities_rows) pe).getD [])
                  "entity_name" (.str "")
                entity_type := Row.getD ((dictGet (entityInfoLookup entities_rows) pe).getD [])
                  "entity_type" (.str "")
                exposure_currency := Row.getD ((dictGet (entityInfoLookup entities_rows) pe).getD [])
                  "currency_code" (.str "")
                currency_type := Row.getD ((dictGet (entityInfoLookup entities_rows) pe).getD [])
                  "currency_type" (.str "")
                car_exemption := Row.getD ((dictGet (entityInfoLookup entities_rows) pe).getD [])
                  "car_exemption_flag" (.str "")
                parent_child_nav_link := Row.getD ((dictGet (entityInfoLookup entities_rows) pe).getD [])
                  "parent_child_nav_link" (.bool false)
                positions := pnavs }, ?_, ?_⟩
      · rw [hresp]
        exact List.mem_map.mpr ⟨(pe, pnavs), hp, rfl⟩
      · rw [hmiss]
        exact ⟨rfl, rfl, rfl, rfl, rfl, rfl, rfl⟩

/-- C10 witness: one orphan position row, empty entity rows. -/
theorem missing_entity_metadata_defaults_witness :
    ∃ resp, orphanOut = .ok resp ∧
      ∃ g ∈ resp.entity_groups, g.entity_id = .str "E9" ∧
        g.entity_name = .str "" ∧ g.entity_type = .str "" ∧
        g.exposure_currency = .str "" ∧ g.currency_type = .str "" ∧
        g.car_exemption = .str "" ∧ g.parent_child_nav_link = .bool false := by
  have hsome : isOkE orphanOut = true := by decide
  cases h : orphanOut with
  | error e =>
    rw [h] at hsome
    exact absurd hsome (by simp [isOkE])
  | ok resp =>
    refine ⟨resp, rfl, ?_⟩
    exact missing_entity_metadata_defaults [] [orphanPosition] [] [] [] [] [] [] [] []
      [] [] [] [] (.num 150000) [] [] [] [] [] [] []
      (.str "E9") orphanPosition resp (List.mem_singleton.mpr rfl)
      (by decide) (by decide) (by decide) h

/-! ## C5 -/

/-- `roundHE` is the identity on integers. -/
theorem roundHE_intCast (k : ℤ) : roundHE (k : ℚ) = k := by
  unfold roundHE
  rw [Int.floor_intCast]
  norm_num

/-- `pyRound` is the identity on integer-valued rationals. -/
theorem pyRound_intCast (m : ℤ) (n : ℕ) : pyRound (m : ℚ) n = (m : ℚ) := by
  unfold pyRound
  have h : (m : ℚ) * 10 ^ n = ((m * 10 ^ n : ℤ) : ℚ) := by push_cast; ring
  rw [h, roundHE_intCast]
  have hpow : ((10 : ℚ) ^ n) ≠ 0 := by positivity
  field_simp

/-- The stage-1A score is an exact multiple of 20. -/
theorem stage1a_score_exact (c : Stage1AConfig) :
    calculate_stage_completeness true (stage1aTables c)
      = ((stage1aTables c).count true : ℚ) / 5 * 100 := by
  unfold calculate_stage_completeness
  norm_num
  rw [show (stage1aTables c).length = 5 from rfl]
  norm_num

/-- The stage-1B/2 score is an exact multiple of 25. -/
theorem stage4_score_exact (tables : List Bool) (h : tables.length = 4) :
    calculate_stage_completeness true tables
      = (tables.count true : ℚ) / 4 * 100 := by
  unfold calculate_stage_completeness
  norm_num
  rw [h]
  norm_num

/-- Division by 5 times 100 is an integer cast. -/
theorem div5_int (k : ℕ) : (k : ℚ) / 5 * 100 = ((20 * k : ℤ) : ℚ) := by
  push_cast
  ring

/-- Division by 4 times 100 is an integer cast. -/
theorem div4_int (k : ℕ) : (k : ℚ) / 4 * 100 = ((25 * k : ℤ) : ℚ) := by
  push_cast
  ring

/-- C5: each stage completeness score equals
(count of present expected sub-tables / total expected) × 100 (a value
on which rounding to 1 decimal is the identity) — 0.0 when 0 of N are
present and 100.0 when all N are present — and the overall completeness
equals the unweighted arithmetic mean of the three stage scores,
rounded to one decimal. -/
theorem completeness_scoring (d : StructuredResponse) :
    (calculate_data_completeness d).stage_1a_completeness
      = ((stage1aTables d.stage_1a_config).count true : ℚ) / 5 * 100 ∧
    (calculate_data_completeness d).stage_1b_completeness
      = ((stage1bTables d.stage_1b_data).count true : ℚ) / 4 * 100 ∧
    (calculate_data_completeness d).stage_2_completeness
      = ((stage2Tables d.stage_2_config).count true : ℚ) / 4 * 100 ∧
    ((stage1aTables d.stage_1a_config).count true = 0 →
      (calculate_data_completeness d).stage_1a_completeness = 0) ∧
    ((stage1aTables d.stage_1a_config).count true = 5 →
      (calculate_data_completeness d).stage_1a_completeness = 100) ∧
    ((stage1bTables d.stage_1b_data).count true = 0 →
      (calculate_data_completeness d).stage_1b_completeness = 0) ∧
    ((stage1bTables d.stage_1b_data).count true = 4 →
      (calculate_data_completeness d).stage_1b_completeness = 100) ∧
    ((stage2Tables d.stage_2_config).count true = 0 →
      (calculate_data_completeness d).stage_2_completeness = 0) ∧
    ((stage2Tables d.stage_2_config).count true = 4 →
      (calculate_data_completeness d).stage_2_completeness = 100) ∧
    (calculate_data_completeness d).overall_completeness
      = pyRound (((calculate_data_completeness d).stage_1a_completeness
          + (calculate_data_completeness d).stage_1b_completeness
          + (calculate_data_completeness d).stage_2_completeness) / 3) 1 := by
  have h1a : (calculate_data_completeness d).stage_1a_completeness
      = ((stage1aTables d.stage_1a_config).count true : ℚ) / 5 * 100 := by
    show pyRound (calculate_stage_completeness true (stage1aTables d.stage_1a_config)) 1 = _
    rw [stage1a_score_exact, div5_int, pyRound_intCast]
  have h1b : (calculate_data_completeness d).stage_1b_completeness
      = ((stage1bTables d.stage_1b_data).count true : ℚ) / 4 * 100 := by
    show pyRound (calculate_stage_completeness true (stage1bTables d.stage_1b_data)) 1 = _
    rw [stage4_score_exact (stage1bTables d.stage_1b_data) rfl, div4_int, pyRound_intCast]
  have h2 : (calculate_data_completeness d).stage_2_completeness
      = ((stage2Tables d.stage_2_config).count true : ℚ) / 4 * 100 := by
    show pyRound (calculate_stage_completeness true (stage2Tables d.stage_2_config)) 1 = _
    rw [stage4_score_exact (stage2Tables d.stage_2_config) rfl, div4_int, pyRound_intCast]
  refine ⟨h1a, h1b, h2, ?_, ?_, ?_, ?_, ?_, ?_, ?_⟩
  · intro h0; rw [h1a, h0]; norm_num
  · intro h5; rw [h1a, h5]; norm_num
  · intro h0; rw [h1b, h0]; norm_num
  · intro h4; rw [h1b, h4]; norm_num
  · intro h0; rw [h2, h0]; norm_num
  · intro h4; rw [h2, h4]; norm_num
  · show pyRound ((calculate_stage_completeness true (stage1aTables d.stage_1a_config)
        + calculate_stage_completeness true (stage1bTables d.stage_1b_data)
        + calculate_stage_completeness true (stage2Tables d.stage_2_config)) / 3) 1 = _
    rw [h1a, h1b, h2, stage1a_score_exact,
      stage4_score_exact (stage1bTables d.stage_1b_data) rfl,
      stage4_score_exact (stage2Tables d.stage_2_config) rfl]

/-- C5 witness: stage 1A fully present (100.0), stage 1B fully absent
(0.0), stage 2 half present (50.0); overall is the rounded mean 50.0. -/
theorem completeness_scoring_witness :
    (calculate_data_completeness halfResponse).stage_1a_completeness = 100 ∧
    (calculate_data_completeness halfResponse).stage_1b_completeness = 0 ∧
    (calculate_data_completeness halfResponse).overall_completeness
      = pyRound ((100 + 0 + 50) / 3) 1 := by
  have h := completeness_scoring halfResponse
  obtain ⟨h1a, h1b, h2, _, hfull, hzero, _, _, _, hov⟩ := h
  have e1a : (calculate_data_completeness halfResponse).stage_1a_completeness = 100 :=
    hfull (by decide)
  have e1b : (calculate_data_completeness halfResponse).stage_1b_completeness = 0 :=
    hzero (by decide)
  have e2 : (calculate_data_completeness halfResponse).stage_2_completeness = 50 := by
    rw [h2]
    norm_num [show (stage2Tables halfResponse.stage_2_config).count true = 2 from by decide]
  refine ⟨e1a, e1b, ?_⟩
  rw [hov, e1a, e1b, e2]

/-! ## C6 -/

/-- C6, counterexample: with the system configuration absent (and no
waterfall rows) the validation records NO warning at all — the claim
that each of the buffer/waterfall/framework/system collections records
a named warning on absence is false for system configuration (no
`else` branch) and for waterfall (the assembled two-key mapping is
always truthy). -/
theorem system_config_absence_not_warned :
    noSystemConfigResponse.stage_1a_config.system_configuration = [] ∧
    noSystemConfigResponse.stage_1a_config.waterfall_logic = { opening := [], closing := [] } ∧
    (perform_comprehensive_validations noSystemConfigResponse "HKD").warnings = [] ∧
    (perform_comprehensive_validations noSystemConfigResponse "HKD").stage_1a.system_config_check
      = false := by
  decide

/-- Warning membership for a positive conditional singleton. -/
theorem mem_ite_singleton {c : Prop} [Decidable c] {w a : String}
    (h : w ∈ (if c then [a] else [])) : w = a := by
  by_cases hc : c
  · rw [if_pos hc] at h
    exact List.mem_singleton.mp h
  · rw [if_neg hc] at h
    exact absurd h (List.not_mem_nil w)

/-- Warning membership for a negative conditional singleton. -/
theorem mem_ite_singleton_neg {c : Prop} [Decidable c] {w a : String}
    (h : w ∈ (if c then [] else [a])) : w = a := by
  by_cases hc : c
  · rw [if_pos hc] at h
    exact absurd h (List.not_mem_nil w)
  · rw [if_neg hc] at h
    exact List.mem_singleton.mp h

/-- C6 (amended): in stage-1A validation, an absent entity group records
an error naming the exposure currency; absence of the buffer or
hedging-framework configuration records a named warning; the waterfall
check tests the assembled two-key waterfall mapping, which is always
truthy, so it always passes and waterfall absence records no warning;
absence of system configuration records no warning (it only leaves the
check false); a USD-PB status other than "PASS" records a warning
naming the actual status. -/
theorem stage1a_validation_behavior (d : StructuredResponse) (exposure : String) :
    (d.entity_groups = [] →
      (perform_comprehensive_validations d exposure).errors
        = ["No entities found for currency " ++ exposure]) ∧
    (d.entity_groups ≠ [] →
      (perform_comprehensive_validations d exposure).stage_1a.entity_check = true ∧
      (perform_comprehensive_validations d exposure).errors = []) ∧
    (d.stage_1a_config.buffer_configuration = [] →
      "No buffer configuration found"
        ∈ (perform_comprehensive_validations d exposure).warnings) ∧
    (d.stage_1a_config.hedging_framework = [] →
      "No hedging framework configuration found"
        ∈ (perform_comprehensive_validations d exposure).warnings) ∧
    (perform_comprehensive_validations d exposure).stage_1a.waterfall_config_check = true ∧
    (d.stage_1a_config.system_configuration = [] →
      (perform_comprehensive_validations d exposure).stage_1a.system_config_check = false) ∧
    (d.stage_1a_config.threshold_configuration.usd_pb_check.status ≠ "PASS" →
      ("USD PB deposit check: "
          ++ d.stage_1a_config.threshold_configuration.usd_pb_check.status)
        ∈ (perform_comprehensive_validations d exposure).warnings) ∧
    (∀ w ∈ (perform_comprehensive_validations d exposure).warnings,
      w ∈ ["No buffer configuration found",
           "No hedging framework configuration found",
           "USD PB deposit check: "
             ++ d.stage_1a_config.threshold_configuration.usd_pb_check.status,
           "No current allocation data found",
           "No CAR master data found",
           "No booking model configuration found",
           "No active Murex books found"]) := by
  refine ⟨?_, ?_, ?_, ?_, rfl, ?_, ?_, ?_⟩
  · intro h
    simp [perform_comprehensive_validations, h]
  · intro h
    constructor
    · simp [perform_comprehensive_validations, h]
    · simp [perform_comprehensive_validations, h]
  · intro h
    simp [perform_comprehensive_validations, h]
  · intro h
    simp [perform_comprehensive_validations, h]
  · intro h
    simp [perform_comprehensive_validations, h]
  · intro h
    simp [perform_comprehensive_validations, h]
  · intro w hw
    simp only [perform_comprehensive_validations, List.mem_append] at hw
    rcases hw with ((((((h | h) | h) | h) | h) | h) | h)
    · rw [mem_ite_singleton h]; simp
    · rw [mem_ite_singleton h]; simp
    · rw [mem_ite_singleton_neg h]; simp
    · rw [mem_ite_singleton h]; simp
    · rw [mem_ite_singleton h]; simp
    · rw [mem_ite_singleton h]; simp
    · rw [mem_ite_singleton h]; simp

/-- C6 witness: a response with missing entities, buffer and framework
and a failing USD-PB check produces the named error and warnings. -/
theorem stage1a_validation_behavior_witness :
    (perform_comprehensive_validations failingChecksResponse "SGD").errors
      = ["No entities found for currency SGD"] ∧
    "No buffer configuration found"
      ∈ (perform_comprehensive_validations failingChecksResponse "SGD").warnings ∧
    "No hedging framework configuration found"
      ∈ (perform_comprehensive_validations failingChecksResponse "SGD").warnings ∧
    "USD PB deposit check: FAIL"
      ∈ (perform_comprehensive_validations failingChecksResponse "SGD").warnings ∧
    (perform_comprehensive_validations failingChecksResponse "SGD").stage_1a.waterfall_config_check
      = true := by
  have h := stage1a_validation_behavior failingChecksResponse "SGD"
  obtain ⟨herr, _, hbuf, hfr, hwf, _, husd, _⟩ := h
  exact ⟨herr rfl, hbuf rfl, hfr rfl, husd (by decide), hwf⟩

/-! ## C4 -/

/-- Membership in the Python-set fold. -/
theorem pySet_fold_mem (xs : List Val) :
    ∀ (acc : List Val) (v : Val),
      v ∈ xs.foldl (fun a w => if w ∈ a then a else a ++ [w]) acc
        ↔ v ∈ acc ∨ v ∈ xs := by
  induction xs with
  | nil => intro acc v; simp
  | cons w t ih =>
    intro acc v
    rw [List.foldl_cons, ih]
    by_cases hw : w ∈ acc
    · rw [if_pos hw]
      constructor
      · rintro (h | h)
        · exact Or.inl h
        · exact Or.inr (List.mem_cons_of_mem w h)
      · rintro (h | h)
        · exact Or.inl h
        · rcases List.mem_cons.mp h with h | h
          · subst h; exact Or.inl hw
          · exact Or.inr h
    · rw [if_neg hw]
      simp only [List.mem_append, List.mem_singleton, List.mem_cons]
      tauto

/-- Membership in a Python set. -/
theorem pySet_mem (xs : List Val) (v : Val) : v ∈ pySet xs ↔ v ∈ xs := by
  rw [pySet, pySet_fold_mem]
  simp

/-- The Python-set fold never introduces duplicates. -/
theorem pySet_fold_nodup (xs : List Val) :
    ∀ (acc : List Val), acc.Nodup →
      (xs.foldl (fun a w => if w ∈ a then a else a ++ [w]) acc).Nodup := by
  induction xs with
  | nil => intro acc h; exact h
  | cons w t ih =>
    intro acc h
    rw [List.foldl_cons]
    by_cases hw : w ∈ acc
    · rw [if_pos hw]; exact ih acc h
    · rw [if_neg hw]
      refine ih _ ?_
      rw [List.nodup_append]
      exact ⟨h, List.nodup_singleton w,
        fun a ha hb => by
          rw [List.mem_singleton] at hb
          subst hb
          exact hw ha⟩

/-- A Python set has no duplicates. -/
theorem pySet_nodup (xs : List Val) : (pySet xs).Nodup :=
  pySet_fold_nodup xs [] List.nodup_nil

/-- The fan-out loop over all-successful rate queries concatenates the
row lists in loop order. -/
theorem fetchAdditionalRates_ok (rates_for : Val → Except String (List Row))
    (g : Val → List Row) :
    ∀ (l : List Val), (∀ p ∈ l, rates_for p = .ok (g p)) →
      fetchAdditionalRates rates_for l = .ok (l.map g).flatten := by
  intro l
  induction l with
  | nil => intro _; rfl
  | cons p ps ih =>
    intro h
    show (rates_for p >>= fun r =>
      fetchAdditionalRates rates_for ps >>= fun rest => Except.ok (r ++ rest)) = _
    rw [h p (List.mem_cons_self p ps), exceptBind_ok,
      ih (fun q hq => h q (List.mem_cons_of_mem p hq)), exceptBind_ok]
    simp

/-- A fan-out loop whose rate query always fails propagates the error
as soon as the proxy list is nonempty. -/
theorem fetchAdditionalRates_error (e : String) (l : List Val) (h : l ≠ []) :
    fetchAdditionalRates (fun _ => .error e) l = .error e := by
  cases l with
  | nil => exact absurd rfl h
  | cons p ps => rfl

/-- C4: every distinct truthy proxy-currency value of the
currency-configuration rows, the exposure currency excluded, triggers
exactly one additional rate query (the queried list is duplicate-free
and characterized by membership), and `additional_rates` is the
concatenation of the per-proxy results; with exactly two distinct
non-self proxies, exactly two queries run and their row lists are
concatenated. -/
theorem proxy_currency_fanout (exposure_currency : String)
    (currency_config_rows : List Row)
    (rates_for : Val → Except String (List Row)) (g : Val → List Row)
    (hok : ∀ p ∈ proxyCurrencies currency_config_rows exposure_currency,
      rates_for p = .ok (g p)) :
    (proxyCurrencies currency_config_rows exposure_currency).Nodup ∧
    (∀ v, v ∈ proxyCurrencies currency_config_rows exposure_currency ↔
      (truthy v = true ∧ v ≠ .str exposure_currency ∧
        ∃ c ∈ currency_config_rows, Row.getD c "proxy_currency" .null = v)) ∧
    fetchAdditionalRates rates_for
        (proxyCurrencies currency_config_rows exposure_currency)
      = .ok ((proxyCurrencies currency_config_rows exposure_currency).map g).flatten ∧
    (∀ a b, proxyCurrencies currency_config_rows exposure_currency = [a, b] →
      fetchAdditionalRates rates_for
          (proxyCurrencies currency_config_rows exposure_currency)
        = .ok (g a ++ g b)) := by
  refine ⟨?_, ?_, ?_, ?_⟩
  · exact List.Nodup.filter _ (pySet_nodup _)
  · intro v
    unfold proxyCurrencies
    rw [List.mem_filter, pySet_mem, List.mem_filterMap]
    constructor
    · rintro ⟨⟨c, hc, hv⟩, hne⟩
      by_cases ht : truthy (Row.getD c "proxy_currency" .null) = true
      · rw [if_pos ht] at hv
        cases hv
        exact ⟨ht, by simpa using hne, c, hc, rfl⟩
      · rw [if_neg ht] at hv
        exact absurd hv (by simp)
    · rintro ⟨ht, hne, c, hc, hv⟩
      subst hv
      exact ⟨⟨c, hc, by rw [if_pos ht]⟩, by simpa using hne⟩
  · exact fetchAdditionalRates_ok rates_for g _ hok
  · intro a b hab
    rw [fetchAdditionalRates_ok rates_for g _ hok, hab]
    simp

/-- C4 witness: two configuration rows with distinct non-self proxies
produce exactly the two queried row lists, concatenated. -/
theorem proxy_currency_fanout_witness :
    proxyCurrencies
        [[("proxy_currency", Val.str "EUR")], [("proxy_currency", Val.str "JPY")]]
        "USD"
      = [.str "EUR", .str "JPY"] ∧
    fetchAdditionalRates
        (fun v => .ok (if v = .str "EUR" then [sampleRow] else [sampleRow, sampleRow]))
        (proxyCurrencies
          [[("proxy_currency", Val.str "EUR")], [("proxy_currency", Val.str "JPY")]]
          "USD")
      = .ok ([sampleRow] ++ [sampleRow, sampleRow]) := by
  have h := proxy_currency_fanout "USD"
    [[("proxy_currency", Val.str "EUR")], [("proxy_currency", Val.str "JPY")]]
    (fun v => .ok (if v = .str "EUR" then [sampleRow] else [sampleRow, sampleRow]))
    (fun v => if v = .str "EUR" then [sampleRow] else [sampleRow, sampleRow])
    (fun p _ => rfl)
  refine ⟨by decide, ?_⟩
  have h2 := h.2.2.2 (.str "EUR") (.str "JPY") (by decide)
  rw [h2]
  decide

/-! ## C7 -/

/-- C7: any error raised during retrieval (outside the one tolerated
hedge-event retry, which is internal to `runFetch`) is caught at the
aggregation entry point and converted to the error payload with every
sub-collection empty and the exception string under `error`; the
endpoint then returns status "error" with message
"Complete data retrieval failed: <cause>"; its status is "success" iff
the whole retrieval succeeded — never a partial result. -/
theorem retrieval_error_converted (exposure_currency : String) (db : DB) (e : String)
    (h : runFetch exposure_currency db = .error e) :
    fetch_complete_hedge_data exposure_currency db = .failure (errorPayload e) ∧
    (errorPayload e).entity_groups = [] ∧
    (errorPayload e).stage_1a_config = [] ∧
    (errorPayload e).stage_1b_data = [] ∧
    (errorPayload e).stage_2_config = [] ∧
    (errorPayload e).hedging_state = [] ∧
    (errorPayload e).risk_monitoring = [] ∧
    (errorPayload e).usd_pb_check = [] ∧
    (errorPayload e).error = e ∧
    (∀ payload : InstructionPayload, payload.exposure_currency = exposure_currency →
      (validate_and_book_hedge_inception payload db).status = "error" ∧
      (validate_and_book_hedge_inception payload db).message
        = "Complete data retrieval failed: " ++ e ∧
      (validate_and_book_hedge_inception payload db).validation_results = none) ∧
    (∀ (db2 : DB) (payload : InstructionPayload),
      (validate_and_book_hedge_inception payload db2).status = "success"
        ↔ ∃ d, runFetch payload.exposure_currency db2 = .ok d) := by
  refine ⟨?_, rfl, rfl, rfl, rfl, rfl, rfl, rfl, rfl, ?_, ?_⟩
  · unfold fetch_complete_hedge_data
    rw [h]
  · intro payload hp
    unfold validate_and_book_hedge_inception fetch_complete_hedge_data
    rw [hp, h]
    exact ⟨rfl, rfl, rfl⟩
  · intro db2 payload
    unfold validate_and_book_hedge_inception fetch_complete_hedge_data
    cases hr : runFetch payload.exposure_currency db2 with
    | ok d =>
      constructor
      · intro _
        exact ⟨d, rfl⟩
      · intro _
        rfl
    | error e2 =>
      constructor
      · intro hcon
        have hbad : ("error" : String) = "success" := hcon
        exact absurd hbad (by decide)
      · rintro ⟨d2, hd2⟩
        cases hd2

/-- C7 witness: a failing entity query yields the error payload and an
error response with the prefixed message. -/
theorem retrieval_error_converted_witness :
    fetch_complete_hedge_data "USD" boomDB = .failure (errorPayload "boom") ∧
    (validate_and_book_hedge_inception stdPayload boomDB).status = "error" ∧
    (validate_and_book_hedge_inception stdPayload boomDB).message
      = "Complete data retrieval failed: boom" := by
  have h := retrieval_error_converted "USD" boomDB "boom" rfl
  obtain ⟨hfail, _, _, _, _, _, _, _, _, hresp, _⟩ := h
  obtain ⟨hstatus, hmsg, _⟩ := hresp stdPayload rfl
  exact ⟨hfail, hstatus, hmsg⟩

/-! ## C8 -/

/-- C8: within retrieval the hedge-event query is the only one with a
soft recovery — on failure it is retried exactly once via the plain
filter-free limited query (the run proceeds exactly as if the query had
returned the plain rows), and if the retry also fails the whole fetch
fails with its error; every other query's failure aborts the fetch
immediately with that error, with no retry. -/
theorem hedge_event_single_retry
    (exposure_currency : String) (er : List EntityRow) (pr cc : List Row)
    (rates : Val → List Row)
    (bu wa ov hf sc al hi he hep cm th up rm cr pc bm mb hin hef : List Row)
    (e e2 : String) (db : DB)
    (hdb : db = mkOkDB er pr cc rates bu wa ov hf sc al hi he hep cm th up rm cr
      pc bm mb hin hef) :
    (runFetch exposure_currency { db with hedge_events := fun _ => .error e }
      = runFetch exposure_currency { db with hedge_events := fun _ => .ok hep }) ∧
    (runFetch exposure_currency { db with
        hedge_events := fun _ => .error e
        hedge_events_plain := .error e2 } = .error e2) ∧
    (proxyCurrencies cc exposure_currency ≠ [] →
      runFetch exposure_currency { db with rates_for := fun _ => .error e }
        = .error e) ∧
    (runFetch exposure_currency { db with entities := .error e } = .error e) ∧
    (runFetch exposure_currency { db with positions := .error e } = .error e) ∧
    (runFetch exposure_currency { db with currency_config := .error e } = .error e) ∧
    (runFetch exposure_currency { db with buffer_config := .error e } = .error e) ∧
    (runFetch exposure_currency { db with waterfall_config := .error e } = .error e) ∧
    (runFetch exposure_currency { db with overlay_config := .error e } = .error e) ∧
    (runFetch exposure_currency { db with hedging_framework := .error e } = .error e) ∧
    (runFetch exposure_currency { db with system_config := .error e } = .error e) ∧
    (runFetch exposure_currency { db with allocations := .error e } = .error e) ∧
    (runFetch exposure_currency { db with hedge_instructions := .error e } = .error e) ∧
    (runFetch exposure_currency { db with car_master := .error e } = .error e) ∧
    (runFetch exposure_currency { db with threshold := .error e } = .error e) ∧
    (runFetch exposure_currency { db with usd_pb := .error e } = .error e) ∧
    (runFetch exposure_currency { db with risk_monitoring := .error e } = .error e) ∧
    (runFetch exposure_currency { db with currency_rates := .error e } = .error e) ∧
    (runFetch exposure_currency { db with proxy_config := .error e } = .error e) ∧
    (runFetch exposure_currency { db with booking_models := .error e } = .error e) ∧
    (runFetch exposure_currency { db with murex_books := .error e } = .error e) ∧
    (runFetch exposure_currency { db with hedge_instruments := .error e } = .error e) ∧
    (runFetch exposure_currency { db with hedge_effectiveness := .error e } = .error e) := by
  subst hdb
  have hfan : fetchAdditionalRates (fun v => Except.ok (rates v))
      (proxyCurrencies cc exposure_currency)
      = .ok ((proxyCurrencies cc exposure_currency).map rates).flatten :=
    fetchAdditionalRates_ok _ rates _ (fun p _ => rfl)
  refine ⟨?_, ?_, ?_, ?_, ?_, ?_, ?_, ?_, ?_, ?_, ?_, ?_, ?_, ?_, ?_, ?_, ?_, ?_, ?_, ?_, ?_, ?_, ?_⟩
  · simp only [runFetch, mkOkDB, hfan, exceptBind_ok, exceptBind_error]
  · simp only [runFetch, mkOkDB, hfan, exceptBind_ok, exceptBind_error]
  · intro hne
    have hrf := fetchAdditionalRates_error e (proxyCurrencies cc exposure_currency) hne
    simp only [runFetch, mkOkDB, hrf, exceptBind_ok, exceptBind_error]
  · simp only [runFetch, mkOkDB, hfan, exceptBind_ok, exceptBind_error]
  · simp only [runFetch, mkOkDB, hfan, exceptBind_ok, exceptBind_error]
  · simp only [runFetch, mkOkDB, hfan, exceptBind_ok, exceptBind_error]
  · simp only [runFetch, mkOkDB, hfan, exceptBind_ok, exceptBind_error]
  · simp only [runFetch, mkOkDB, hfan, exceptBind_ok, exceptBind_error]
  · simp only [runFetch, mkOkDB, hfan, exceptBind_ok, exceptBind_error]
  · simp only [runFetch, mkOkDB, hfan, exceptBind_ok, exceptBind_error]
  · simp only [runFetch, mkOkDB, hfan, exceptBind_ok, exceptBind_error]
  · simp only [runFetch, mkOkDB, hfan, exceptBind_ok, exceptBind_error]
  · simp only [runFetch, mkOkDB, hfan, exceptBind_ok, exceptBind_error]
  · simp only [runFetch, mkOkDB, hfan, exceptBind_ok, exceptBind_error]
  · simp only [runFetch, mkOkDB, hfan, exceptBind_ok, exceptBind_error]
  · simp only [runFetch, mkOkDB, hfan, exceptBind_ok, exceptBind_error]
  · simp only [runFetch, mkOkDB, hfan, exceptBind_ok, exceptBind_error]
  · simp only [runFetch, mkOkDB, hfan, exceptBind_ok, exceptBind_error]
  · simp only [runFetch, mkOkDB, hfan, exceptBind_ok, exceptBind_error]
  · simp only [runFetch, mkOkDB, hfan, exceptBind_ok, exceptBind_error]
  · simp only [runFetch, mkOkDB, hfan, exceptBind_ok, exceptBind_error]
  · simp only [runFetch, mkOkDB, hfan, exceptBind_ok, exceptBind_error]
  · simp only [runFetch, mkOkDB, hfan, exceptBind_ok, exceptBind_error]

/-- C8 witness: with a tiny all-successful store, failing the
hedge-event query twice fails the fetch with the second error; failing
the buffer query or the proxy-rate query fails it immediately. -/
theorem hedge_event_single_retry_witness :
    runFetch "USD" { tinyDB with
        hedge_events := fun _ => .error "x"
        hedge_events_plain := .error "y" } = .error "y" ∧
    runFetch "USD" { tinyDB with buffer_config := .error "x" } = .error "x" ∧
    runFetch "USD" { tinyDB with rates_for := fun _ => .error "x" } = .error "x" := by
  have h := hedge_event_single_retry "USD" [] []
    [[("proxy_currency", Val.str "EUR")]] (fun _ => [])
    [] [] [] [] [] [] [] [] [] [] [] [] [] [] [] [] [] [] []
    "x" "y" tinyDB rfl
  obtain ⟨_, hretry, hrates, _, _, _, hbuf, _⟩ := h
  exact ⟨hretry, hbuf, hrates (by decide)⟩

end HedgeSpec
